import Mathlib

/-
Verification development for the card-issuance lifecycle service.

The embedding below is a shallow model of src/backend/app/service.py together
with the helpers it uses from src/backend/app/utils.py and the persisted data
model of src/backend/app/models.py.

Modelling decisions:
* Database tables are lists of rows; the SQLAlchemy session is modelled by
  explicit state passing.  Every service function returns the pair of its
  Python result (an `Except Err` value: `.error` for a raised exception) and
  the COMMITTED database state.  Mutations made on session objects before a
  `raise` are discarded exactly as the rolled-back session discards them, so
  an error return carries the state as of the last `db.commit()`.
* `ref_status` is the static seeded catalog from seed.py (unique
  `(entity_type, code)` pairs, ids in bijection with codes), so a row's
  `status_id` foreign key is represented by its status code string and the
  `get_status_id` lookup returns the code itself, failing on codes outside
  the catalog exactly where `scalar_one()` would raise.
* `uuid4` primary keys are modelled by a fresh-id counter `uuid_seq` (only
  freshness/uniqueness of the generated ids is ever relied upon).
* `datetime.utcnow()` is an abstract clock tick `DB.now`; `.year` is an
  opaque label `yearOf`.  Postgres sequences (`nextval`) are counters in the
  state; a sequence advance survives a rolled-back transaction, as in
  Postgres.
* All exceptions in service.py are Python `ValueError`s distinguished by
  their message; the `Err` constructors record the error-taxonomy class of
  each raise site (not-found / invalid-state / validation / storage).
-/

/-- A status foreign key, represented by the status code it resolves to in
the seeded `ref_status` catalog. -/
abbrev StatusId := String

/-- Raised errors.  service.py raises `ValueError` with a distinguishing
message at every site; the constructor records the class of the site. -/
inductive Err where
  | notFound (msg : String)
  | invalidState (msg : String)
  | validation (msg : String)
  | storage (msg : String)
deriving Repr, DecidableEq

/-- Row of `card_application` (models.CardApplication), persisted columns. -/
structure CardApplication where
  id : Nat
  application_no : String
  client_id : Nat
  product_id : Nat
  tariff_id : Nat
  channel_id : Nat
  branch_id : Nat
  delivery_method_id : Nat
  delivery_address : Option String
  delivery_comment : Option String
  embossing_name : Option String
  is_salary_project : Bool
  requested_at : Nat
  requested_delivery_date : Option Nat
  planned_issue_date : Option Nat
  status_id : StatusId
  reject_reason_id : Option Nat
  kyc_score : Option Nat
  kyc_result : Option String
  kyc_notes : Option String
  decision_at : Option Nat
  decision_by : Option String
  priority : String
  limits_requested_json : List (String × String)
  consent_personal_data : Bool
  consent_marketing : Bool
  comment : Option String
  created_at : Nat
  updated_at : Nat
deriving Repr, DecidableEq

/-- Row of `issue_batch` (models.IssueBatch).  Note: the model has no
`updated_at` column. -/
structure IssueBatch where
  id : Nat
  batch_no : String
  vendor_id : Nat
  status_id : StatusId
  planned_send_at : Option Nat
  sent_at : Option Nat
  received_at : Option Nat
  created_at : Nat
deriving Repr, DecidableEq

/-- Row of `issue_batch_item` (models.IssueBatchItem). -/
structure IssueBatchItem where
  id : Nat
  batch_id : Nat
  application_id : Nat
  produced_at : Option Nat
  delivered_to_branch_at : Option Nat
deriving Repr, DecidableEq

/-- Row of `card` (models.Card). -/
structure Card where
  id : Nat
  card_no : String
  application_id : Nat
  status_id : StatusId
  pan_masked : Option String
  expiry_month : Option Nat
  expiry_year : Option Nat
  issued_at : Option Nat
  delivered_at : Option Nat
  handed_at : Option Nat
  activated_at : Option Nat
  closed_at : Option Nat
  activation_channel_id : Option Nat
  note : Option String
deriving Repr, DecidableEq

/-- Row of `status_history` (models.StatusHistory). -/
structure StatusHistory where
  entity_type : String
  entity_id : Nat
  status_id : StatusId
  changed_at : Nat
  changed_by : Option String
deriving Repr, DecidableEq

/-- Committed database state: the tables touched by the lifecycle core, the
three Postgres sequences, the fresh-uuid counter and the clock. -/
structure DB where
  apps : List CardApplication
  batches : List IssueBatch
  items : List IssueBatchItem
  cards : List Card
  history : List StatusHistory
  app_seq : Nat
  batch_seq : Nat
  card_seq : Nat
  uuid_seq : Nat
  now : Nat
deriving Repr, DecidableEq

/-- `db.get(models.CardApplication, app_id)`. -/
def DB.appById (db : DB) (i : Nat) : Option CardApplication :=
  db.apps.find? (fun a => a.id = i)

/-- `db.get(models.IssueBatch, batch_id)`. -/
def DB.batchById (db : DB) (i : Nat) : Option IssueBatch :=
  db.batches.find? (fun b => b.id = i)

/-- `db.get(models.Card, card_id)`. -/
def DB.cardById (db : DB) (i : Nat) : Option Card :=
  db.cards.find? (fun c => c.id = i)

/-- `select(Card).where(Card.application_id == app_id)` with `scalar_one_or_none`
(the `application_id` column is unique). -/
def DB.cardByApp (db : DB) (i : Nat) : Option Card :=
  db.cards.find? (fun c => c.application_id = i)

/-- Committing an attribute mutation of a fetched application row. -/
def DB.putApp (db : DB) (a : CardApplication) : DB :=
  { db with apps := db.apps.map (fun x => if x.id = a.id then a else x) }

/-- Committing an attribute mutation of a fetched batch row. -/
def DB.putBatch (db : DB) (b : IssueBatch) : DB :=
  { db with batches := db.batches.map (fun x => if x.id = b.id then b else x) }

/-- Committing an attribute mutation of a fetched card row. -/
def DB.putCard (db : DB) (c : Card) : DB :=
  { db with cards := db.cards.map (fun x => if x.id = c.id then c else x) }

/-- The `application` status codes seeded in ref_status (seed.py). -/
def appStatusCodes : List String := ["NEW", "IN_REVIEW", "APPROVED", "REJECTED", "IN_BATCH"]

/-- The `batch` status codes seeded in ref_status (seed.py). -/
def batchStatusCodes : List String := ["CREATED", "SENT", "RECEIVED"]

/-- The `card` status codes seeded in ref_status (seed.py). -/
def cardStatusCodes : List String :=
  ["CREATED", "ISSUED", "DELIVERED", "HANDED", "ACTIVATED", "CLOSED"]

/-- service.py `get_status_id`: resolves `(entity_type, code)` in the seeded
catalog; `scalar_one()` raises if no such row exists. -/
def get_status_id (entity_type code : String) : Except Err StatusId :=
  if (entity_type = "application" ∧ code ∈ appStatusCodes)
      ∨ (entity_type = "batch" ∧ code ∈ batchStatusCodes)
      ∨ (entity_type = "card" ∧ code ∈ cardStatusCodes) then
    .ok code
  else
    .error (.storage "ref_status row not found")

/-- service.py `add_history`: append one StatusHistory row. -/
def add_history (db : DB) (entity_type : String) (entity_id : Nat) (sid : StatusId)
    (actor : Option String) : DB :=
  { db with history := db.history ++
      [{ entity_type := entity_type, entity_id := entity_id, status_id := sid,
         changed_at := db.now, changed_by := actor }] }

/-- service.py `set_status`: resolve the code and append a history row. -/
def set_status (db : DB) (entity_type : String) (entity_id : Nat) (status_code : String)
    (actor : Option String) : Except Err (StatusId × DB) :=
  match get_status_id entity_type status_code with
  | .error e => .error e
  | .ok sid => .ok (sid, add_history db entity_type entity_id sid actor)

/-- utils.py `next_seq`: Postgres `nextval` on one of the three counters.
Sequence advances are non-transactional (they survive a rollback). -/
def next_seq (db : DB) (seq_name : String) : Nat × DB :=
  if seq_name = "app_seq" then (db.app_seq + 1, { db with app_seq := db.app_seq + 1 })
  else if seq_name = "batch_seq" then (db.batch_seq + 1, { db with batch_seq := db.batch_seq + 1 })
  else if seq_name = "card_seq" then (db.card_seq + 1, { db with card_seq := db.card_seq + 1 })
  else (0, db)

/-- One decimal digit as a character. -/
def decDigitChar (d : Nat) : Char :=
  match d with
  | 0 => '0' | 1 => '1' | 2 => '2' | 3 => '3' | 4 => '4'
  | 5 => '5' | 6 => '6' | 7 => '7' | 8 => '8' | _ => '9'

/-- Base-10 rendering of a natural number (most significant digit first),
modelling Python decimal `d` formatting. -/
def decDigits (n : Nat) : List Char :=
  if h : n < 10 then [decDigitChar n]
  else decDigits (n / 10) ++ [decDigitChar (n % 10)]
termination_by n
decreasing_by exact Nat.div_lt_self (by omega) (by omega)

/-- Python `str` of a natural number. -/
def natRepr (n : Nat) : String :=
  String.mk (decDigits n)

/-- utils.py `make_no`: Python fstring with the number zero-padded to
`width` digits.  Every call site in service.py passes `width = 6` explicitly
(the Python default is also 6). -/
def make_no (pre : String) (year : Nat) (n : Nat) (width : Nat) : String :=
  pre ++ "-" ++ natRepr year ++ "-" ++
    String.mk (List.replicate (width - (decDigits n).length) '0' ++ decDigits n)

/-- `datetime.utcnow().year` derived from the abstract tick clock; an opaque
label, never branched on by the service code. -/
def yearOf (t : Nat) : Nat :=
  1970 + t / 31536000

/-- Python truthiness of an optional integer (`None` and `0` are falsy). -/
def truthyNat : Option Nat → Bool
  | none => false
  | some n => n != 0

/-- Python truthiness of an optional string (`None` and `""` are falsy). -/
def truthyStr : Option String → Bool
  | none => false
  | some s => s != ""

/-- Python `x or fallback` on optional strings. -/
def pyOrStr (x fallback : Option String) : Option String :=
  match x with
  | some s => if s = "" then fallback else some s
  | none => fallback

/-- schemas.ApplicationCreate: the full mutable field set (ApplicationUpdate
is the identical schema). -/
structure ApplicationCreate where
  client_id : Nat
  product_id : Nat
  tariff_id : Nat
  channel_id : Nat
  branch_id : Nat
  delivery_method_id : Nat
  delivery_address : Option String
  delivery_comment : Option String
  embossing_name : Option String
  is_salary_project : Bool
  requested_delivery_date : Option Nat
  priority : String
  limits_requested_json : List (String × String)
  consent_personal_data : Bool
  consent_marketing : Bool
  comment : Option String
deriving Repr, DecidableEq

/-- schemas.ApplicationUpdate is schemas.ApplicationCreate. -/
abbrev ApplicationUpdate := ApplicationCreate

/-- schemas.ApplicationDecisionIn. -/
structure ApplicationDecisionIn where
  decision : String
  reject_reason_id : Option Nat
  planned_issue_date : Option Nat
  kyc_score : Option Nat
  kyc_result : Option String
  kyc_notes : Option String
  decision_by : Option String
deriving Repr, DecidableEq

/-- schemas.BatchUpdate. -/
structure BatchUpdate where
  vendor_id : Option Nat
  planned_send_at : Option Nat
deriving Repr, DecidableEq

/-- service.py `create_application` (lines 78-95). -/
def create_application (db : DB) (data : ApplicationCreate) (actor : Option String) :
    Except Err CardApplication × DB :=
  let year := yearOf db.now
  let sdb := next_seq db "app_seq"
  let app_no := make_no "APP" year sdb.1 6
  match get_status_id "application" "NEW" with
  | .error e => (.error e, sdb.2)
  | .ok sid =>
    let a : CardApplication :=
      { id := sdb.2.uuid_seq, application_no := app_no,
        client_id := data.client_id, product_id := data.product_id,
        tariff_id := data.tariff_id, channel_id := data.channel_id,
        branch_id := data.branch_id, delivery_method_id := data.delivery_method_id,
        delivery_address := data.delivery_address, delivery_comment := data.delivery_comment,
        embossing_name := data.embossing_name, is_salary_project := data.is_salary_project,
        requested_at := sdb.2.now, requested_delivery_date := data.requested_delivery_date,
        planned_issue_date := none, status_id := sid, reject_reason_id := none,
        kyc_score := none, kyc_result := none, kyc_notes := none,
        decision_at := none, decision_by := none, priority := data.priority,
        limits_requested_json := data.limits_requested_json,
        consent_personal_data := data.consent_personal_data,
        consent_marketing := data.consent_marketing, comment := data.comment,
        created_at := sdb.2.now, updated_at := sdb.2.now }
    let db2 := { sdb.2 with apps := sdb.2.apps ++ [a], uuid_seq := sdb.2.uuid_seq + 1 }
    (.ok a, add_history db2 "application" a.id sid actor)

/-- service.py `update_application` (lines 97-112): full-field overwrite,
blocked once the status is APPROVED / REJECTED / IN_BATCH. -/
def update_application (db : DB) (app_id : Nat) (data : ApplicationUpdate)
    (actor : Option String) : Except Err CardApplication × DB :=
  match db.appById app_id with
  | none => (.error (.notFound "Application not found"), db)
  | some a =>
    if a.status_id ∈ (["APPROVED", "REJECTED", "IN_BATCH"] : List String) then
      (.error (.invalidState
        "Application is already in a final or processing state. Editing is restricted."), db)
    else
      let a1 := { a with
        client_id := data.client_id, product_id := data.product_id,
        tariff_id := data.tariff_id, channel_id := data.channel_id,
        branch_id := data.branch_id, delivery_method_id := data.delivery_method_id,
        delivery_address := data.delivery_address, delivery_comment := data.delivery_comment,
        embossing_name := data.embossing_name, is_salary_project := data.is_salary_project,
        requested_delivery_date := data.requested_delivery_date, priority := data.priority,
        limits_requested_json := data.limits_requested_json,
        consent_personal_data := data.consent_personal_data,
        consent_marketing := data.consent_marketing, comment := data.comment,
        updated_at := db.now }
      (.ok a1, db.putApp a1)

/-- service.py `decide_application` (lines 114-145).  The KYC/decision
attributes are assigned on the session object before the decision branch;
on any raise they are discarded unloaded, since no commit has happened. -/
def decide_application (db : DB) (app_id : Nat) (data : ApplicationDecisionIn)
    (actor : Option String) : Except Err CardApplication × DB :=
  match db.appById app_id with
  | none => (.error (.notFound "Application not found"), db)
  | some a =>
    if a.status_id ∈ (["NEW", "IN_REVIEW"] : List String) then
      let now := db.now
      let a1 := { a with
        kyc_score := data.kyc_score, kyc_result := data.kyc_result,
        kyc_notes := data.kyc_notes, decision_at := some now,
        decision_by := pyOrStr data.decision_by actor }
      if data.decision = "approve" then
        match set_status db "application" a.id "APPROVED" actor with
        | .error e => (.error e, db)
        | .ok sd =>
          let a2 := { a1 with
            reject_reason_id := none, planned_issue_date := data.planned_issue_date,
            status_id := sd.1, updated_at := now }
          (.ok a2, sd.2.putApp a2)
      else if data.decision = "reject" then
        if truthyNat data.reject_reason_id = false then
          (.error (.validation "reject_reason_id is required for rejection"), db)
        else
          match set_status db "application" a.id "REJECTED" actor with
          | .error e => (.error e, db)
          | .ok sd =>
            let a2 := { a1 with
              reject_reason_id := data.reject_reason_id, status_id := sd.1, updated_at := now }
            (.ok a2, sd.2.putApp a2)
      else
        (.error (.validation "decision must be approve or reject"), db)
    else
      (.error (.invalidState ("Decision is not allowed from status " ++ a.status_id)), db)

/-- The per-application body of service.py `add_batch_items` (lines 326-339):
session-pending item inserts and status moves, committed only by the caller
after the whole list is processed. -/
def add_batch_items_go (db : DB) (batch_id : Nat) (approved_id in_batch_id : StatusId)
    (ids : List Nat) (actor : Option String) : Except Err DB :=
  match ids with
  | [] => .ok db
  | aid :: rest =>
    match db.appById aid with
    | none => .error (.notFound ("Application " ++ natRepr aid ++ " not found"))
    | some a =>
      if a.status_id ≠ approved_id then
        .error (.validation
          ("Application " ++ a.application_no ++ " must be APPROVED to be added to batch"))
      else
        let item : IssueBatchItem :=
          { id := db.uuid_seq, batch_id := batch_id, application_id := aid,
            produced_at := none, delivered_to_branch_at := none }
        let db1 := { db with items := db.items ++ [item], uuid_seq := db.uuid_seq + 1 }
        let a1 := { a with status_id := in_batch_id, updated_at := db1.now }
        let db2 := add_history (db1.putApp a1) "application" a.id in_batch_id actor
        add_batch_items_go db2 batch_id approved_id in_batch_id rest actor

/-- service.py `add_batch_items` (lines 318-341): a single `db.commit()` at
the end, so a raise on any application commits nothing. -/
def add_batch_items (db : DB) (batch_id : Nat) (application_ids : List Nat)
    (actor : Option String) : Except Err Unit × DB :=
  match db.batchById batch_id with
  | none => (.error (.notFound "Batch not found"), db)
  | some _ =>
    match get_status_id "application" "APPROVED" with
    | .error e => (.error e, db)
    | .ok approved_id =>
      match get_status_id "application" "IN_BATCH" with
      | .error e => (.error e, db)
      | .ok in_batch_id =>
        match add_batch_items_go db batch_id approved_id in_batch_id application_ids actor with
        | .error e => (.error e, db)
        | .ok db1 => (.ok (), db1)

/-- service.py `ensure_card_for_application` (lines 491-516). -/
def ensure_card_for_application (db : DB) (app_id : Nat) (actor : Option String) :
    Except Err Card × DB :=
  match db.appById app_id with
  | none => (.error (.notFound "Application not found"), db)
  | some a =>
    if a.status_id ∉ (["APPROVED", "IN_BATCH"] : List String) then
      (.error (.invalidState "Card can be created only for APPROVED/IN_BATCH applications"), db)
    else
      match db.cardByApp app_id with
      | some existing => (.ok existing, db)
      | none =>
        let year := yearOf db.now
        let sdb := next_seq db "card_seq"
        let card_no := make_no "CARD" year sdb.1 6
        match get_status_id "card" "CREATED" with
        | .error e => (.error e, sdb.2)
        | .ok sid =>
          let c : Card :=
            { id := sdb.2.uuid_seq, card_no := card_no, application_id := app_id,
              status_id := sid, pan_masked := none, expiry_month := none, expiry_year := none,
              issued_at := none, delivered_at := none, handed_at := none,
              activated_at := none, closed_at := none,
              activation_channel_id := none, note := none }
          let db2 := { sdb.2 with cards := sdb.2.cards ++ [c], uuid_seq := sdb.2.uuid_seq + 1 }
          (.ok c, add_history db2 "card" c.id sid actor)

/-- service.py `CARD_ALLOWED` (lines 482-489), with the `.get(code, set())`
default of `card_event`. -/
def CARD_ALLOWED (code : String) : List String :=
  if code = "CREATED" then ["ISSUED"]
  else if code = "ISSUED" then ["DELIVERED"]
  else if code = "DELIVERED" then ["HANDED"]
  else if code = "HANDED" then ["ACTIVATED"]
  else if code = "ACTIVATED" then ["CLOSED"]
  else []

/-- The `mapping` dict of service.py `card_event` (lines 526-532). -/
def event_mapping (event : String) : Option String :=
  if event = "issued" then some "ISSUED"
  else if event = "delivered" then some "DELIVERED"
  else if event = "handed" then some "HANDED"
  else if event = "activated" then some "ACTIVATED"
  else if event = "closed" then some "CLOSED"
  else none

/-- The ISSUED branch of service.py `card_event` (lines 541-549): stamp
`issued_at` and synthesize the demo masked PAN and expiry when not yet set
(Python truthiness guards). -/
def card_issue_stamps (db : DB) (c : Card) (now : Nat) : Card × DB :=
  let ca := { c with issued_at := some now }
  let cdbb :=
    if truthyStr ca.pan_masked then (ca, db)
    else
      let sdb := next_seq db "card_seq"
      ({ ca with pan_masked := some ("**** **** **** " ++ natRepr (1000 + sdb.1 % 9000)) },
       sdb.2)
  let cc := if truthyNat cdbb.1.expiry_month then cdbb.1
    else { cdbb.1 with expiry_month := some 12 }
  let ce := if truthyNat cc.expiry_year then cc
    else { cc with expiry_year := some (yearOf now + 3) }
  (ce, cdbb.2)

/-- service.py `card_event` (lines 518-562). -/
def card_event (db : DB) (card_id : Nat) (event : String) (actor : Option String) :
    Except Err Card × DB :=
  match db.cardById card_id with
  | none => (.error (.notFound "Card not found"), db)
  | some c =>
    let now := db.now
    let current_code := c.status_id
    match event_mapping event with
    | none => (.error (.validation "Invalid event"), db)
    | some next_code =>
      if next_code ∉ CARD_ALLOWED current_code then
        (.error (.invalidState
          ("Transition " ++ current_code ++ " -> " ++ next_code ++ " is not allowed")), db)
      else
        let cdb :=
          if next_code = "ISSUED" then card_issue_stamps db c now
          else if next_code = "DELIVERED" then ({ c with delivered_at := some now }, db)
          else if next_code = "HANDED" then ({ c with handed_at := some now }, db)
          else if next_code = "ACTIVATED" then ({ c with activated_at := some now }, db)
          else if next_code = "CLOSED" then ({ c with closed_at := some now }, db)
          else (c, db)
        match set_status cdb.2 "card" c.id next_code actor with
        | .error e => (.error e, { db with card_seq := cdb.2.card_seq })
        | .ok sd =>
          let c2 := { cdb.1 with status_id := sd.1 }
          (.ok c2, sd.2.putCard c2)

/-- The loop body of service.py `issue_batch_cards` (lines 422-429).
`ensure_card_for_application` and `card_event` each commit internally. -/
def issue_batch_cards_go (actor : Option String) (db : DB) (ids : List Nat)
    (issued created : Nat) : Except Err (Nat × Nat) × DB :=
  match ids with
  | [] => (.ok (issued, created), db)
  | app_id :: rest =>
    match ensure_card_for_application db app_id actor with
    | (.error e, db1) => (.error e, db1)
    | (.ok card, db1) =>
      if card.status_id = "CREATED" then
        match card_event db1 card.id "issued" actor with
        | (.error e, db2) => (.error e, db2)
        | (.ok _, db2) => issue_batch_cards_go actor db2 rest (issued + 1) (created + 1)
      else
        issue_batch_cards_go actor db1 rest issued (created + 1)

/-- Returned counters of service.py `issue_batch_cards`. -/
structure IssueCounts where
  applications : Nat
  cards_total : Nat
  cards_issued_now : Nat
deriving Repr, DecidableEq

/-- service.py `issue_batch_cards` (lines 417-430). -/
def issue_batch_cards (db : DB) (batch_id : Nat) (actor : Option String) :
    Except Err IssueCounts × DB :=
  let ids := (db.items.filter (fun i => i.batch_id = batch_id)).map (fun i => i.application_id)
  match issue_batch_cards_go actor db ids 0 0 with
  | (.error e, db1) => (.error e, db1)
  | (.ok r, db1) =>
    (.ok { applications := ids.length, cards_total := r.2, cards_issued_now := r.1 }, db1)

/-- service.py `set_batch_status` (lines 343-360): stamps `sent_at` /
`received_at`, records history, commits, and on RECEIVED triggers
`issue_batch_cards` after that commit.  No transition validation is
performed. -/
def set_batch_status (db : DB) (batch_id : Nat) (status_code : String)
    (actor : Option String) : Except Err IssueBatch × DB :=
  match db.batchById batch_id with
  | none => (.error (.notFound "Batch not found"), db)
  | some b =>
    let now := db.now
    let b1 := if status_code = "SENT" then { b with sent_at := some now } else b
    let b2 := if status_code = "RECEIVED" then { b1 with received_at := some now } else b1
    match set_status db "batch" b.id status_code actor with
    | .error e => (.error e, db)
    | .ok sd =>
      let b3 := { b2 with status_id := sd.1 }
      let db1 := sd.2.putBatch b3
      if status_code = "RECEIVED" then
        match issue_batch_cards db1 batch_id actor with
        | (.error e, db2) => (.error e, db2)
        | (.ok _, db2) => (.ok b3, db2)
      else
        (.ok b3, db1)

/-- service.py `update_batch` (lines 362-374): `vendor_id` only when
supplied; `planned_send_at` unconditionally (the source's
`is not None or is None` test is always true, allowing an explicit null).
The `b.updated_at` assignment touches no mapped column of `issue_batch`
and persists nothing. -/
def update_batch (db : DB) (batch_id : Nat) (data : BatchUpdate) (actor : Option String) :
    Except Err IssueBatch × DB :=
  match db.batchById batch_id with
  | none => (.error (.notFound "Batch not found"), db)
  | some b =>
    let b1 := match data.vendor_id with
      | some v => { b with vendor_id := v }
      | none => b
    let b2 := { b1 with planned_send_at := data.planned_send_at }
    (.ok b2, db.putBatch b2)

/-- Specification-side definition (spec section 4.5): the single allowed
successor in the linear card chain
CREATED, ISSUED, DELIVERED, HANDED, ACTIVATED, CLOSED. -/
def specCardSucc (code : String) : Option String :=
  if code = "CREATED" then some "ISSUED"
  else if code = "ISSUED" then some "DELIVERED"
  else if code = "DELIVERED" then some "HANDED"
  else if code = "HANDED" then some "ACTIVATED"
  else if code = "ACTIVATED" then some "CLOSED"
  else none

/-- Specification-side definition: a card state that is ISSUED or later in
the chain. -/
def issuedOrLater (code : String) : Prop :=
  code ∈ (["ISSUED", "DELIVERED", "HANDED", "ACTIVATED", "CLOSED"] : List String)

instance (code : String) : Decidable (issuedOrLater code) := by
  unfold issuedOrLater; infer_instance

/-- Specification-side decimal denotation of a digit string. -/
def ofDigits (l : List Char) : Nat :=
  l.foldl (fun acc c => acc * 10 + (c.toNat - 48)) 0

/-- Database well-formedness: the constraints the storage layer enforces
(primary keys, the unique constraint on `card.application_id`), freshness of
the uuid counter relative to stored rows, and card statuses drawn from the
card state space. -/
def WF (db : DB) : Prop :=
  (db.apps.map (fun a => a.id)).Nodup ∧
  (db.batches.map (fun b => b.id)).Nodup ∧
  (db.cards.map (fun c => c.id)).Nodup ∧
  (db.cards.map (fun c => c.application_id)).Nodup ∧
  (∀ a ∈ db.apps, a.id < db.uuid_seq) ∧
  (∀ b ∈ db.batches, b.id < db.uuid_seq) ∧
  (∀ c ∈ db.cards, c.id < db.uuid_seq) ∧
  (∀ i ∈ db.items, i.id < db.uuid_seq) ∧
  (∀ c ∈ db.cards, c.status_id ∈ cardStatusCodes)

instance (db : DB) : Decidable (WF db) := by
  unfold WF; infer_instance

/-- A concrete sample application row (used to instantiate claim theorems). -/
def exApp (st : StatusId) : CardApplication :=
  { id := 1, application_no := "APP-2026-000001", client_id := 1, product_id := 1,
    tariff_id := 1, channel_id := 1, branch_id := 1, delivery_method_id := 1,
    delivery_address := none, delivery_comment := none, embossing_name := none,
    is_salary_project := false, requested_at := 0, requested_delivery_date := none,
    planned_issue_date := none, status_id := st, reject_reason_id := none,
    kyc_score := none, kyc_result := none, kyc_notes := none, decision_at := none,
    decision_by := none, priority := "normal", limits_requested_json := [],
    consent_personal_data := true, consent_marketing := false, comment := none,
    created_at := 0, updated_at := 0 }

/-- A concrete sample batch row. -/
def exBatch (st : StatusId) : IssueBatch :=
  { id := 2, batch_no := "BAT-2026-000001", vendor_id := 1, status_id := st,
    planned_send_at := none, sent_at := none, received_at := none, created_at := 0 }

/-- A concrete sample batch item linking the sample batch to the sample application. -/
def exItem : IssueBatchItem :=
  { id := 3, batch_id := 2, application_id := 1, produced_at := none,
    delivered_to_branch_at := none }

/-- A concrete sample card row for the sample application. -/
def exCard (st : StatusId) : Card :=
  { id := 4, card_no := "CARD-2026-000001", application_id := 1, status_id := st,
    pan_masked := none, expiry_month := none, expiry_year := none, issued_at := none,
    delivered_at := none, handed_at := none, activated_at := none, closed_at := none,
    activation_channel_id := none, note := none }

/-- A concrete database with one application and one batch (no card). -/
def exDB (appSt batchSt : StatusId) : DB :=
  { apps := [exApp appSt], batches := [exBatch batchSt], items := [exItem], cards := [],
    history := [], app_seq := 1, batch_seq := 1, card_seq := 0, uuid_seq := 10, now := 100 }

/-- The sample database with a card for the application. -/
def exDBCard (appSt batchSt cardSt : StatusId) : DB :=
  { exDB appSt batchSt with cards := [exCard cardSt] }

/-- A concrete full update payload. -/
def exUpd : ApplicationUpdate :=
  { client_id := 2, product_id := 2, tariff_id := 2, channel_id := 2, branch_id := 2,
    delivery_method_id := 2, delivery_address := some "addr", delivery_comment := none,
    embossing_name := some "NAME", is_salary_project := true,
    requested_delivery_date := some 5, priority := "high", limits_requested_json := [],
    consent_personal_data := true, consent_marketing := true, comment := some "c" }

/-- A concrete reject decision payload with the given reject-reason reference. -/
def exDecideReject (rr : Option Nat) : ApplicationDecisionIn :=
  { decision := "reject", reject_reason_id := rr, planned_issue_date := none,
    kyc_score := some 700, kyc_result := some "pass", kyc_notes := none,
    decision_by := some "rev" }

-- ==== end of definitions; auxiliary lemmas and claim theorems follow ====

theorem find?_append_left {α : Type} {p : α → Bool} {l₁ l₂ : List α} {a : α}
    (h : l₁.find? p = some a) : (l₁ ++ l₂).find? p = some a := by
  rw [List.find?_append, h]; rfl

theorem find?_append_right {α : Type} {p : α → Bool} {l₁ l₂ : List α}
    (h : l₁.find? p = none) : (l₁ ++ l₂).find? p = l₂.find? p := by
  rw [List.find?_append, h]; rfl

theorem mem_key_unique {α : Type} (f : α → Nat) {l : List α}
    (hnd : (l.map f).Nodup) {x y : α} (hx : x ∈ l) (hy : y ∈ l) (hf : f x = f y) :
    x = y := by
  induction l with
  | nil => cases hx
  | cons h t ih =>
    rw [List.map_cons, List.nodup_cons] at hnd
    rcases List.mem_cons.1 hx with rfl | hx'
    · rcases List.mem_cons.1 hy with rfl | hy'
      · rfl
      · exact absurd (hf ▸ List.mem_map_of_mem f hy') hnd.1
    · rcases List.mem_cons.1 hy with rfl | hy'
      · exact absurd (hf ▸ List.mem_map_of_mem f hx') hnd.1
      · exact ih hnd.2 hx' hy'

theorem find?_key_of_mem {α : Type} (f : α → Nat) {l : List α}
    (hnd : (l.map f).Nodup) {c : α} {k : Nat} (hmem : c ∈ l) (hk : f c = k) :
    l.find? (fun x => f x = k) = some c := by
  induction l with
  | nil => cases hmem
  | cons h t ih =>
    rw [List.map_cons, List.nodup_cons] at hnd
    rcases List.mem_cons.1 hmem with rfl | hmem'
    · exact List.find?_cons_of_pos _ (by simp [hk])
    · have hne : f h ≠ k := by
        intro he
        have : f h = f c := he.trans hk.symm
        exact hnd.1 (this ▸ List.mem_map_of_mem f hmem')
      rw [List.find?_cons_of_neg _ (by simp [hne])]
      exact ih hnd.2 hmem'

theorem map_key_put {α β : Type} (f : α → Nat) (g : α → β) {l : List α}
    (hnd : (l.map f).Nodup) {cd c : α} (hmem : cd ∈ l) (hid : f c = f cd)
    (hg : g c = g cd) :
    (l.map (fun x => if f x = f c then c else x)).map g = l.map g := by
  rw [List.map_map]
  refine List.map_congr_left (fun x hx => ?_)
  by_cases hxc : f x = f c
  · have hxcd : x = cd := mem_key_unique f hnd hx hmem (hxc.trans hid)
    subst hxcd
    simp only [Function.comp_apply, if_pos hxc, hg]
  · simp [Function.comp, hxc]

theorem mem_put {α : Type} (f : α → Nat) {l : List α} {c y : α}
    (hy : y ∈ l.map (fun x => if f x = f c then c else x)) : y = c ∨ y ∈ l := by
  rcases List.mem_map.1 hy with ⟨x, hx, hxy⟩
  by_cases hxc : f x = f c
  · left; rw [← hxy]; simp [hxc]
  · right; rw [← hxy]; simpa [hxc] using hx

theorem put_id_of_not_mem {α : Type} (f : α → Nat) {l : List α} {c : α}
    (h : ∀ y ∈ l, f y ≠ f c) : l.map (fun x => if f x = f c then c else x) = l := by
  have : l.map (fun x => if f x = f c then c else x) = l.map id :=
    List.map_congr_left (fun y hy => by simp [h y hy])
  simpa using this

theorem find?_map_put {α : Type} (f : α → Nat) {l : List α}
    (hnd : (l.map f).Nodup) {cd c : α} (hmem : cd ∈ l) (hid : f c = f cd)
    {q : α → Bool} (hq : q c = q cd) :
    (l.map (fun x => if f x = f c then c else x)).find? q
      = (l.find? q).map (fun y => if f y = f cd then c else y) := by
  induction l with
  | nil => rfl
  | cons h t ih =>
    rw [List.map_cons, List.nodup_cons] at hnd
    by_cases hxc : f h = f c
    · have hcd : h = cd := by
        rcases List.mem_cons.1 hmem with rfl | hmem'
        · rfl
        · have : f h = f cd := hxc.trans hid
          exact absurd (this ▸ List.mem_map_of_mem f hmem') hnd.1
      subst hcd
      by_cases hqh : q h = true
      · simp only [List.map_cons, if_pos hxc]
        rw [List.find?_cons_of_pos _ (hq.trans hqh), List.find?_cons_of_pos _ hqh]
        simp
      · have hqc : ¬(q c = true) := by rw [hq]; exact hqh
        have htid : t.map (fun x => if f x = f c then c else x) = t :=
          put_id_of_not_mem f (fun y hy he => by
            have : f h = f y := hxc.trans he.symm
            exact hnd.1 (this ▸ List.mem_map_of_mem f hy))
        simp only [List.map_cons, if_pos hxc, htid]
        rw [List.find?_cons_of_neg _ hqc, List.find?_cons_of_neg _ hqh]
        cases hf : t.find? q with
        | none => rfl
        | some y =>
          have hyne : f y ≠ f h := by
            intro he
            exact hnd.1 (he ▸ List.mem_map_of_mem f (List.mem_of_find?_eq_some hf))
          simp [hyne]
    · have hcdt : cd ∈ t := by
        rcases List.mem_cons.1 hmem with rfl | hmem'
        · exact absurd hid.symm hxc
        · exact hmem'
      by_cases hqh : q h = true
      · have hne : f h ≠ f cd := fun he => hxc (he.trans hid.symm)
        simp only [List.map_cons, if_neg hxc]
        rw [List.find?_cons_of_pos _ hqh, List.find?_cons_of_pos _ hqh]
        simp [hne]
      · simp only [List.map_cons, if_neg hxc]
        rw [List.find?_cons_of_neg _ hqh, List.find?_cons_of_neg _ hqh]
        exact ih hnd.2 hcdt

theorem next_seq_card_eq (db : DB) :
    next_seq db "card_seq" = (db.card_seq + 1, { db with card_seq := db.card_seq + 1 }) := by
  rfl

theorem next_seq_app_eq (db : DB) :
    next_seq db "app_seq" = (db.app_seq + 1, { db with app_seq := db.app_seq + 1 }) := by
  rfl

theorem get_status_id_app (code : String) (h : code ∈ appStatusCodes) :
    get_status_id "application" code = .ok code := by
  unfold get_status_id
  rw [if_pos (Or.inl ⟨rfl, h⟩)]

theorem get_status_id_batch (code : String) (h : code ∈ batchStatusCodes) :
    get_status_id "batch" code = .ok code := by
  unfold get_status_id
  rw [if_pos (Or.inr (Or.inl ⟨rfl, h⟩))]

theorem get_status_id_card (code : String) (h : code ∈ cardStatusCodes) :
    get_status_id "card" code = .ok code := by
  unfold get_status_id
  rw [if_pos (Or.inr (Or.inr ⟨rfl, h⟩))]

theorem set_status_ok (db : DB) (et : String) (eid : Nat) (code : String)
    (actor : Option String) (h : get_status_id et code = .ok code) :
    set_status db et eid code actor = .ok (code, add_history db et eid code actor) := by
  unfold set_status
  rw [h]

theorem WF_add_history {db : DB} (hwf : WF db) (et : String) (eid : Nat)
    (sid : StatusId) (actor : Option String) : WF (add_history db et eid sid actor) :=
  hwf

theorem ensure_ok_inv {db : DB} {app_id : Nat} {actor : Option String} {cd : Card} {dbE : DB}
    (hwf : WF db) (h : ensure_card_for_application db app_id actor = (.ok cd, dbE)) :
    cd.application_id = app_id ∧
    dbE.apps = db.apps ∧ dbE.items = db.items ∧ dbE.batches = db.batches ∧
    dbE.now = db.now ∧
    (∃ a, db.appById app_id = some a ∧
      (a.status_id = "APPROVED" ∨ a.status_id = "IN_BATCH")) ∧
    dbE.cardByApp app_id = some cd ∧
    (∀ x, x ≠ app_id → dbE.cardByApp x = db.cardByApp x) ∧
    (db.cardByApp app_id = some cd ∧ dbE = db ∨
      db.cardByApp app_id = none ∧ cd.status_id = "CREATED") ∧
    WF dbE := by
  obtain ⟨hw1, hw2, hw3, hw4, hw5, hw6, hw7, hw8, hw9⟩ := hwf
  unfold ensure_card_for_application at h
  cases ha : db.appById app_id with
  | none => rw [ha] at h; simp only [] at h; exact absurd h (by simp)
  | some a =>
    rw [ha] at h
    simp only [] at h
    by_cases hst : a.status_id ∈ (["APPROVED", "IN_BATCH"] : List String)
    · rw [if_neg (not_not_intro hst)] at h
      cases hcard : db.cardByApp app_id with
      | some ex =>
        rw [hcard] at h
        simp only [] at h
        simp only [Prod.mk.injEq, Except.ok.injEq] at h
        obtain ⟨rfl, rfl⟩ := h
        refine ⟨by simpa using List.find?_some hcard, rfl, rfl, rfl, rfl,
          ⟨a, rfl, by simpa using hst⟩, hcard, fun x _ => rfl,
          Or.inl ⟨rfl, rfl⟩, hw1, hw2, hw3, hw4, hw5, hw6, hw7, hw8, hw9⟩
      | none =>
        rw [hcard] at h
        simp only [] at h
        rw [next_seq_card_eq, get_status_id_card "CREATED" (by simp [cardStatusCodes])] at h
        simp only [] at h
        simp only [Prod.mk.injEq, Except.ok.injEq] at h
        obtain ⟨rfl, rfl⟩ := h
        have hcard2 : db.cards.find? (fun c => c.application_id = app_id) = none := hcard
        have hcard' : ∀ y ∈ db.cards, ¬(y.application_id = app_id) := by
          simpa using List.find?_eq_none.1 hcard2
        refine ⟨rfl, rfl, rfl, rfl, rfl, ⟨a, rfl, by simpa using hst⟩, ?_, ?_, ?_, ?_⟩
        · show (db.cards ++ [_]).find? _ = _
          rw [find?_append_right hcard2]
          simp
        · intro x hx
          show (db.cards ++ [_]).find? _ = _
          unfold DB.cardByApp
          rw [List.find?_append]
          cases hfx : db.cards.find? (fun c => c.application_id = x) with
          | some y => rfl
          | none => simp [Ne.symm hx]
        · exact Or.inr ⟨rfl, rfl⟩
        · refine ⟨hw1, hw2, ?_, ?_, ?_, ?_, ?_, ?_, ?_⟩
          · show ((db.cards ++ [_]).map _).Nodup
            rw [List.map_append, List.nodup_append]
            refine ⟨hw3, by simp, ?_⟩
            intro y hy hmy
            simp only [List.map_cons, List.map_nil, List.mem_singleton] at hmy
            rcases List.mem_map.1 hy with ⟨z, hz, rfl⟩
            have := hw7 z hz
            omega
          · show ((db.cards ++ [_]).map _).Nodup
            rw [List.map_append, List.nodup_append]
            refine ⟨hw4, by simp, ?_⟩
            intro y hy hmy
            simp only [List.map_cons, List.map_nil, List.mem_singleton] at hmy
            rcases List.mem_map.1 hy with ⟨z, hz, rfl⟩
            exact hcard' z hz hmy
          · intro x hx; exact Nat.lt_succ_of_lt (hw5 x hx)
          · intro x hx; exact Nat.lt_succ_of_lt (hw6 x hx)
          · intro x hx
            rcases List.mem_append.1 hx with hx' | hx'
            · exact Nat.lt_succ_of_lt (hw7 x hx')
            · simp only [List.mem_singleton] at hx'
              subst hx'
              exact Nat.lt_succ_self _
          · intro x hx; exact Nat.lt_succ_of_lt (hw8 x hx)
          · intro x hx
            rcases List.mem_append.1 hx with hx' | hx'
            · exact hw9 x hx'
            · simp only [List.mem_singleton] at hx'
              subst hx'
              simp [cardStatusCodes]
    · rw [if_pos hst] at h
      exact absurd h (by simp)

theorem ensure_ok_exists {db : DB} {app_id : Nat} (actor : Option String) {a : CardApplication}
    (ha : db.appById app_id = some a)
    (hst : a.status_id = "APPROVED" ∨ a.status_id = "IN_BATCH") :
    ∃ cd dbE, ensure_card_for_application db app_id actor = (.ok cd, dbE) := by
  have hst' : a.status_id ∈ (["APPROVED", "IN_BATCH"] : List String) := by simpa using hst
  unfold ensure_card_for_application
  rw [ha]
  simp only []
  rw [if_neg (not_not_intro hst')]
  cases hcard : db.cardByApp app_id with
  | some ex => exact ⟨ex, db, rfl⟩
  | none =>
    rw [next_seq_card_eq, get_status_id_card "CREATED" (by simp [cardStatusCodes])]
    exact ⟨_, _, rfl⟩

theorem card_issue_stamps_fields (db : DB) (c : Card) (now : Nat) :
    (card_issue_stamps db c now).1.id = c.id ∧
    (card_issue_stamps db c now).1.application_id = c.application_id ∧
    (card_issue_stamps db c now).1.status_id = c.status_id ∧
    (card_issue_stamps db c now).2.apps = db.apps ∧
    (card_issue_stamps db c now).2.items = db.items ∧
    (card_issue_stamps db c now).2.batches = db.batches ∧
    (card_issue_stamps db c now).2.cards = db.cards ∧
    (card_issue_stamps db c now).2.uuid_seq = db.uuid_seq ∧
    (card_issue_stamps db c now).2.now = db.now := by
  unfold card_issue_stamps
  simp only []
  split_ifs <;> simp [next_seq_card_eq]

theorem cardByApp_put_self {l : List Card}
    (hnd3 : (l.map (fun c => c.id)).Nodup)
    (hnd4 : (l.map (fun c => c.application_id)).Nodup) {cd c2 : Card} (hmem : cd ∈ l)
    (hid : c2.id = cd.id) (happ : c2.application_id = cd.application_id) :
    (l.map (fun x => if x.id = c2.id then c2 else x)).find?
        (fun x => x.application_id = cd.application_id) = some c2 := by
  have h := find?_map_put (fun c => c.id) hnd3 hmem hid
    (q := fun y => decide (y.application_id = cd.application_id)) (by simp [happ])
  rw [h, find?_key_of_mem (fun c => c.application_id) hnd4 hmem rfl]
  simp

theorem cardByApp_put_other {l : List Card}
    (hnd3 : (l.map (fun c => c.id)).Nodup) {cd c2 : Card} (hmem : cd ∈ l)
    (hid : c2.id = cd.id) (happ : c2.application_id = cd.application_id) (x : Nat)
    (hx : x ≠ cd.application_id) :
    (l.map (fun y => if y.id = c2.id then c2 else y)).find? (fun y => y.application_id = x)
      = l.find? (fun y => y.application_id = x) := by
  have h := find?_map_put (fun c => c.id) hnd3 hmem hid
    (q := fun y => decide (y.application_id = x)) (by simp [happ])
  rw [h]
  cases hfy : l.find? (fun y => y.application_id = x) with
  | none => rfl
  | some y =>
    have hyx : y.application_id = x := by simpa using List.find?_some hfy
    have hyne : y.id ≠ cd.id := by
      intro he
      have : y = cd := mem_key_unique (fun c => c.id) hnd3 (List.mem_of_find?_eq_some hfy) hmem he
      subst this
      exact hx hyx.symm
    simp [hyne]

theorem WF_of_eq {db1 db2 : DB} (hwf : WF db1) (happs : db2.apps = db1.apps)
    (hbat : db2.batches = db1.batches) (hcards : db2.cards = db1.cards)
    (hitems : db2.items = db1.items) (huuid : db2.uuid_seq = db1.uuid_seq) : WF db2 := by
  unfold WF at *
  rw [happs, hbat, hcards, hitems, huuid]
  exact hwf

theorem mem_put_card {l : List Card} {c2 y : Card}
    (hy : y ∈ l.map (fun x => if x.id = c2.id then c2 else x)) : y = c2 ∨ y ∈ l :=
  mem_put (fun c => c.id) hy

theorem map_put_card_key {l : List Card}
    (hnd : (l.map (fun c => c.id)).Nodup) {cd c2 : Card} (hmem : cd ∈ l)
    (hid : c2.id = cd.id) (g : Card → Nat) (hg : g c2 = g cd) :
    (l.map (fun x => if x.id = c2.id then c2 else x)).map g = l.map g :=
  map_key_put (fun c => c.id) g hnd hmem hid hg

theorem WF_putCard {db : DB} (hwf : WF db) {cd c2 : Card} (hmem : cd ∈ db.cards)
    (hid : c2.id = cd.id) (happ : c2.application_id = cd.application_id)
    (hstc : c2.status_id ∈ cardStatusCodes) : WF (db.putCard c2) := by
  obtain ⟨hw1, hw2, hw3, hw4, hw5, hw6, hw7, hw8, hw9⟩ := hwf
  refine ⟨hw1, hw2, ?_, ?_, hw5, hw6, ?_, hw8, ?_⟩
  · show ((db.cards.map _).map _).Nodup
    rw [map_put_card_key hw3 hmem hid (fun c => c.id) (by simpa using hid)]
    exact hw3
  · show ((db.cards.map _).map _).Nodup
    rw [map_put_card_key hw3 hmem hid (fun c => c.application_id) (by simpa using happ)]
    exact hw4
  · intro y hy
    rcases mem_put_card hy with rfl | hy'
    · show y.id < db.uuid_seq
      rw [hid]
      exact hw7 cd hmem
    · exact hw7 y hy'
  · intro y hy
    rcases mem_put_card hy with rfl | hy'
    · exact hstc
    · exact hw9 y hy'

theorem card_event_ok_issued {db : DB} {cd : Card} (actor : Option String)
    (hwf : WF db) (hmem : cd ∈ db.cards) (hst : cd.status_id = "CREATED") :
    ∃ c2 db2, card_event db cd.id "issued" actor = (.ok c2, db2) ∧
      c2.id = cd.id ∧ c2.application_id = cd.application_id ∧ c2.status_id = "ISSUED" ∧
      db2.apps = db.apps ∧ db2.items = db.items ∧ db2.batches = db.batches ∧
      db2.now = db.now ∧ db2.uuid_seq = db.uuid_seq ∧
      db2.cardByApp cd.application_id = some c2 ∧
      (∀ x, x ≠ cd.application_id → db2.cardByApp x = db.cardByApp x) ∧
      WF db2 := by
  obtain ⟨hf1, hf2, hf3, hf4, hf5, hf6, hf7, hf8, hf9⟩ := card_issue_stamps_fields db cd db.now
  have hw3 := hwf.2.2.1
  have hw4 := hwf.2.2.2.1
  have hbyid : db.cardById cd.id = some cd := by
    unfold DB.cardById
    exact find?_key_of_mem (fun c => c.id) hw3 hmem rfl
  unfold card_event
  rw [hbyid]
  simp only []
  rw [show event_mapping "issued" = some "ISSUED" from rfl]
  simp only []
  rw [hst]
  rw [if_neg (not_not_intro (by simp [CARD_ALLOWED]))]
  rw [if_pos trivial]
  rw [set_status_ok _ _ _ _ _ (get_status_id_card "ISSUED" (by simp [cardStatusCodes]))]
  simp only []
  have hid2 : ({ (card_issue_stamps db cd db.now).1 with status_id := "ISSUED" } : Card).id = cd.id := hf1
  have happ2 : ({ (card_issue_stamps db cd db.now).1 with status_id := "ISSUED" } : Card).application_id
      = cd.application_id := hf2
  refine ⟨_, _, rfl, hf1, hf2, rfl, hf4, hf5, hf6, hf9, hf8, ?_, ?_, ?_⟩
  · show ((card_issue_stamps db cd db.now).2.cards.map _).find? _ = _
    rw [hf7]
    exact cardByApp_put_self hw3 hw4 hmem hid2 happ2
  · intro x hx
    show ((card_issue_stamps db cd db.now).2.cards.map _).find? _ = _
    rw [hf7]
    exact cardByApp_put_other hw3 hmem hid2 happ2 x hx
  · have hwfY : WF (add_history (card_issue_stamps db cd db.now).2 "card" cd.id "ISSUED" actor) :=
      WF_of_eq hwf hf4 hf6 hf7 hf5 hf8
    have hmemY : cd ∈ (add_history (card_issue_stamps db cd db.now).2 "card" cd.id "ISSUED" actor).cards := by
      show cd ∈ (card_issue_stamps db cd db.now).2.cards
      rw [hf7]
      exact hmem
    exact WF_putCard hwfY hmemY hid2 happ2 (by simp [cardStatusCodes])

theorem appById_congr {db1 db2 : DB} (h : db1.apps = db2.apps) (x : Nat) :
    db1.appById x = db2.appById x := by
  unfold DB.appById
  rw [h]

theorem issue_go_ok_inv (actor : Option String) :
    ∀ (ids : List Nat) (db : DB) (issued created : Nat) (r : Nat × Nat) (db1 : DB),
      WF db →
      issue_batch_cards_go actor db ids issued created = (.ok r, db1) →
      WF db1 ∧ db1.apps = db.apps ∧ db1.items = db.items ∧ db1.batches = db.batches ∧
      db1.now = db.now ∧ r.2 = created + ids.length ∧
      (∀ aid ∈ ids, ∃ a, db.appById aid = some a ∧
        (a.status_id = "APPROVED" ∨ a.status_id = "IN_BATCH")) ∧
      (∀ aid ∈ ids, ∃ cd, db1.cardByApp aid = some cd ∧ cd.status_id ≠ "CREATED" ∧
        cd.status_id ∈ cardStatusCodes) ∧
      (∀ x c0, db.cardByApp x = some c0 → c0.status_id ≠ "CREATED" →
        db1.cardByApp x = some c0) := by
  intro ids
  induction ids with
  | nil =>
    intro db issued created r db1 hwf h
    unfold issue_batch_cards_go at h
    simp only [Prod.mk.injEq, Except.ok.injEq] at h
    obtain ⟨rfl, rfl⟩ := h
    exact ⟨hwf, rfl, rfl, rfl, rfl, by simp, by simp, by simp, fun x c0 hx _ => hx⟩
  | cons app_id rest ih =>
    intro db issued created r db1 hwf h
    unfold issue_batch_cards_go at h
    rcases hE : ensure_card_for_application db app_id actor with ⟨res, dbE⟩
    rw [hE] at h
    cases res with
    | error e => simp at h
    | ok card =>
      simp only [] at h
      obtain ⟨hcapp, happs, hitems, hbatches, hnow, ⟨a0, ha0, hst0⟩, hcByApp, hcPres, hdisj, hwfE⟩ :=
        ensure_ok_inv hwf hE
      by_cases hc : card.status_id = "CREATED"
      · rw [if_pos hc] at h
        have hmemE : card ∈ dbE.cards := List.mem_of_find?_eq_some hcByApp
        obtain ⟨c2, db2, hev, hc2id, hc2app, hc2st, h2apps, h2items, h2batches, h2now,
          h2uuid, h2cByApp, h2pres, hwf2⟩ := card_event_ok_issued actor hwfE hmemE hc
        rw [hev] at h
        simp only [] at h
        obtain ⟨hwf1, h1apps, h1items, h1batches, h1now, hcount, happok, hcardok, hpres⟩ :=
          ih db2 (issued + 1) (created + 1) r db1 hwf2 h
        refine ⟨hwf1, h1apps.trans (h2apps.trans happs), h1items.trans (h2items.trans hitems),
          h1batches.trans (h2batches.trans hbatches), h1now.trans (h2now.trans hnow),
          by rw [List.length_cons]; omega, ?_, ?_, ?_⟩
        · intro aid haid
          rcases List.mem_cons.1 haid with rfl | haid'
          · exact ⟨a0, ha0, hst0⟩
          · obtain ⟨a, ha, hs⟩ := happok aid haid'
            exact ⟨a, (appById_congr (h2apps.trans happs) aid).symm.trans ha, hs⟩
        · intro aid haid
          rcases List.mem_cons.1 haid with rfl | haid'
          · refine ⟨c2, ?_, by simp [hc2st], by simp [hc2st, cardStatusCodes]⟩
            refine hpres aid c2 ?_ (by simp [hc2st])
            rw [← hcapp]
            exact h2cByApp
          · exact hcardok aid haid'
        · intro x c0 hx hnc
          by_cases hxa : x = app_id
          · subst hxa
            rcases hdisj with ⟨hex, _⟩ | ⟨hnone, _⟩
            · rw [hx] at hex
              have : c0 = card := Option.some.inj hex
              subst this
              exact absurd hc hnc
            · rw [hx] at hnone
              cases hnone
          · have he1 : dbE.cardByApp x = some c0 := (hcPres x hxa).trans hx
            have he2 : db2.cardByApp x = some c0 := by
              rw [h2pres x (by rw [hcapp]; exact hxa)]
              exact he1
            exact hpres x c0 he2 hnc
      · rw [if_neg hc] at h
        obtain ⟨hwf1, h1apps, h1items, h1batches, h1now, hcount, happok, hcardok, hpres⟩ :=
          ih dbE issued (created + 1) r db1 hwfE h
        refine ⟨hwf1, h1apps.trans happs, h1items.trans hitems,
          h1batches.trans hbatches, h1now.trans hnow,
          by rw [List.length_cons]; omega, ?_, ?_, ?_⟩
        · intro aid haid
          rcases List.mem_cons.1 haid with rfl | haid'
          · exact ⟨a0, ha0, hst0⟩
          · obtain ⟨a, ha, hs⟩ := happok aid haid'
            exact ⟨a, (appById_congr happs aid).symm.trans ha, hs⟩
        · intro aid haid
          rcases List.mem_cons.1 haid with rfl | haid'
          · have hmemE : card ∈ dbE.cards := List.mem_of_find?_eq_some hcByApp
            refine ⟨card, hpres aid card hcByApp hc, hc, hwfE.2.2.2.2.2.2.2.2 card hmemE⟩
          · exact hcardok aid haid'
        · intro x c0 hx hnc
          by_cases hxa : x = app_id
          · subst hxa
            rcases hdisj with ⟨hex, hdbe⟩ | ⟨hnone, _⟩
            · have he1 : dbE.cardByApp x = some c0 := by rw [hdbe]; exact hx
              exact hpres x c0 he1 hnc
            · rw [hx] at hnone
              cases hnone
          · have he1 : dbE.cardByApp x = some c0 := (hcPres x hxa).trans hx
            exact hpres x c0 he1 hnc

theorem issue_go_total (actor : Option String) :
    ∀ (ids : List Nat) (db : DB) (issued created : Nat),
      WF db →
      (∀ aid ∈ ids, ∃ a, db.appById aid = some a ∧
        (a.status_id = "APPROVED" ∨ a.status_id = "IN_BATCH")) →
      ∃ r db1, issue_batch_cards_go actor db ids issued created = (.ok r, db1) := by
  intro ids
  induction ids with
  | nil =>
    intro db issued created _ _
    exact ⟨(issued, created), db, rfl⟩
  | cons app_id rest ih =>
    intro db issued created hwf hok
    obtain ⟨a, ha, hst⟩ := hok app_id (List.mem_cons_self _ _)
    obtain ⟨cd, dbE, hE⟩ := ensure_ok_exists actor ha hst
    obtain ⟨hcapp, happs, _, _, _, _, hcByApp, _, _, hwfE⟩ := ensure_ok_inv hwf hE
    unfold issue_batch_cards_go
    rw [hE]
    simp only []
    by_cases hc : cd.status_id = "CREATED"
    · rw [if_pos hc]
      have hmemE : cd ∈ dbE.cards := List.mem_of_find?_eq_some hcByApp
      obtain ⟨c2, db2, hev, _, _, _, h2apps, _, _, _, _, _, _, hwf2⟩ :=
        card_event_ok_issued actor hwfE hmemE hc
      rw [hev]
      simp only []
      refine ih db2 (issued + 1) (created + 1) hwf2 ?_
      intro aid haid
      obtain ⟨a', ha', hs'⟩ := hok aid (List.mem_cons_of_mem _ haid)
      exact ⟨a', (appById_congr (h2apps.trans happs) aid).trans ha', hs'⟩
    · rw [if_neg hc]
      refine ih dbE issued (created + 1) hwfE ?_
      intro aid haid
      obtain ⟨a', ha', hs'⟩ := hok aid (List.mem_cons_of_mem _ haid)
      exact ⟨a', (appById_congr happs aid).trans ha', hs'⟩

theorem issue_go_noop (actor : Option String) :
    ∀ (ids : List Nat) (db : DB) (issued created : Nat),
      (∀ aid ∈ ids, (∃ a, db.appById aid = some a ∧
          (a.status_id = "APPROVED" ∨ a.status_id = "IN_BATCH")) ∧
        (∃ cd, db.cardByApp aid = some cd ∧ cd.status_id ≠ "CREATED")) →
      issue_batch_cards_go actor db ids issued created
        = (.ok (issued, created + ids.length), db) := by
  intro ids
  induction ids with
  | nil =>
    intro db issued created _
    simp [issue_batch_cards_go]
  | cons app_id rest ih =>
    intro db issued created hok
    obtain ⟨⟨a, ha, hst⟩, ⟨cd, hcd, hnc⟩⟩ := hok app_id (List.mem_cons_self _ _)
    have hst' : a.status_id ∈ (["APPROVED", "IN_BATCH"] : List String) := by simpa using hst
    unfold issue_batch_cards_go
    unfold ensure_card_for_application
    rw [ha]
    simp only []
    rw [if_neg (not_not_intro hst'), hcd]
    simp only []
    rw [if_neg hnc]
    have hlen : created + 1 + rest.length = created + (app_id :: rest).length := by
      rw [List.length_cons]
      omega
    rw [ih db issued (created + 1) (fun aid haid => hok aid (List.mem_cons_of_mem _ haid)), hlen]

/-- C3: for every existing application, update fails with InvalidStateError
when the current status is APPROVED, REJECTED or IN_BATCH, and succeeds when
it is NEW or IN_REVIEW, overwriting exactly the supplied full mutable field
set, bumping updated_at, and leaving every other application field (and the
rest of the database, apart from the replaced row) unchanged. -/
theorem C3_update_full_overwrite (db : DB) (app_id : Nat) (a : CardApplication)
    (data : ApplicationUpdate) (actor : Option String)
    (ha : db.appById app_id = some a) :
    ((a.status_id = "APPROVED" ∨ a.status_id = "REJECTED" ∨ a.status_id = "IN_BATCH") →
      update_application db app_id data actor =
        (.error (.invalidState
          "Application is already in a final or processing state. Editing is restricted."), db)) ∧
    ((a.status_id = "NEW" ∨ a.status_id = "IN_REVIEW") →
      ∃ a1, update_application db app_id data actor = (.ok a1, db.putApp a1) ∧
        a1.client_id = data.client_id ∧ a1.product_id = data.product_id ∧
        a1.tariff_id = data.tariff_id ∧ a1.channel_id = data.channel_id ∧
        a1.branch_id = data.branch_id ∧ a1.delivery_method_id = data.delivery_method_id ∧
        a1.delivery_address = data.delivery_address ∧
        a1.delivery_comment = data.delivery_comment ∧
        a1.embossing_name = data.embossing_name ∧
        a1.is_salary_project = data.is_salary_project ∧
        a1.requested_delivery_date = data.requested_delivery_date ∧
        a1.priority = data.priority ∧
        a1.limits_requested_json = data.limits_requested_json ∧
        a1.consent_personal_data = data.consent_personal_data ∧
        a1.consent_marketing = data.consent_marketing ∧
        a1.comment = data.comment ∧
        a1.updated_at = db.now ∧
        a1.id = a.id ∧ a1.application_no = a.application_no ∧
        a1.requested_at = a.requested_at ∧
        a1.planned_issue_date = a.planned_issue_date ∧ a1.status_id = a.status_id ∧
        a1.reject_reason_id = a.reject_reason_id ∧ a1.kyc_score = a.kyc_score ∧
        a1.kyc_result = a.kyc_result ∧ a1.kyc_notes = a.kyc_notes ∧
        a1.decision_at = a.decision_at ∧ a1.decision_by = a.decision_by ∧
        a1.created_at = a.created_at) := by
  constructor
  · intro hst
    unfold update_application
    rw [ha]
    simp only []
    rw [if_pos (by rcases hst with h | h | h <;> simp [h])]
  · intro hst
    unfold update_application
    rw [ha]
    simp only []
    rw [if_neg (by rcases hst with h | h <;> simp [h])]
    refine ⟨_, rfl, ?_⟩
    repeat' apply And.intro
    all_goals rfl

theorem C3_witness :
    update_application (exDB "APPROVED" "CREATED") 1 exUpd none
      = (.error (.invalidState
          "Application is already in a final or processing state. Editing is restricted."),
         exDB "APPROVED" "CREATED") ∧
    (∃ a1, update_application (exDB "NEW" "CREATED") 1 exUpd none
      = (.ok a1, (exDB "NEW" "CREATED").putApp a1) ∧ a1.client_id = exUpd.client_id) := by
  constructor
  · exact (C3_update_full_overwrite (exDB "APPROVED" "CREATED") 1 (exApp "APPROVED") exUpd none
      (by rfl)).1 (Or.inl rfl)
  · obtain ⟨a1, heq, hcl, _⟩ := (C3_update_full_overwrite (exDB "NEW" "CREATED") 1 (exApp "NEW")
      exUpd none (by rfl)).2 (Or.inl rfl)
    exact ⟨a1, heq, hcl⟩

/-- C4: for applications in NEW or IN_REVIEW, deciding "reject" without a
reject-reason reference fails with ValidationError (and commits nothing),
while deciding "reject" with reason X (a real reference, hence nonzero)
succeeds and sets the status to REJECTED and the reject reason to X; from
any other status deciding fails with InvalidStateError. -/
theorem C4_decide_reject (db : DB) (app_id : Nat) (a : CardApplication)
    (data : ApplicationDecisionIn) (actor : Option String)
    (ha : db.appById app_id = some a) (hdec : data.decision = "reject") :
    ((a.status_id = "NEW" ∨ a.status_id = "IN_REVIEW") →
      (data.reject_reason_id = none →
        decide_application db app_id data actor =
          (.error (.validation "reject_reason_id is required for rejection"), db)) ∧
      (∀ x, data.reject_reason_id = some x → x ≠ 0 →
        ∃ a2 db2, decide_application db app_id data actor = (.ok a2, db2) ∧
          a2.status_id = "REJECTED" ∧ a2.reject_reason_id = some x)) ∧
    (¬(a.status_id = "NEW" ∨ a.status_id = "IN_REVIEW") →
      decide_application db app_id data actor =
        (.error (.invalidState ("Decision is not allowed from status " ++ a.status_id)), db)) := by
  constructor
  · intro hst
    have hst' : a.status_id ∈ (["NEW", "IN_REVIEW"] : List String) := by
      rcases hst with h | h <;> simp [h]
    constructor
    · intro hrr
      unfold decide_application
      rw [ha]
      simp only []
      rw [if_pos hst', hdec]
      rw [if_neg (by decide), if_pos rfl, hrr]
      rw [if_pos (show truthyNat none = false from rfl)]
    · intro x hrr hx
      unfold decide_application
      rw [ha]
      simp only []
      rw [if_pos hst', hdec]
      rw [if_neg (by decide), if_pos rfl, hrr]
      rw [if_neg (by simp [truthyNat, hx])]
      rw [set_status_ok _ _ _ _ _ (get_status_id_app "REJECTED" (by simp [appStatusCodes]))]
      simp only []
      exact ⟨_, _, rfl, rfl, rfl⟩
  · intro hst
    have hst' : a.status_id ∉ (["NEW", "IN_REVIEW"] : List String) := by
      simpa using hst
    unfold decide_application
    rw [ha]
    simp only []
    rw [if_neg hst']

theorem C4_witness :
    decide_application (exDB "NEW" "CREATED") 1 (exDecideReject none) none
      = (.error (.validation "reject_reason_id is required for rejection"),
         exDB "NEW" "CREATED") ∧
    (∃ a2 db2, decide_application (exDB "IN_REVIEW" "CREATED") 1 (exDecideReject (some 7)) none
      = (.ok a2, db2) ∧ a2.status_id = "REJECTED" ∧ a2.reject_reason_id = some 7) ∧
    decide_application (exDB "IN_BATCH" "CREATED") 1 (exDecideReject (some 7)) none
      = (.error (.invalidState "Decision is not allowed from status IN_BATCH"),
         exDB "IN_BATCH" "CREATED") := by
  refine ⟨?_, ?_, ?_⟩
  · exact ((C4_decide_reject (exDB "NEW" "CREATED") 1 (exApp "NEW") (exDecideReject none) none
      (by rfl) rfl).1 (Or.inl rfl)).1 rfl
  · exact ((C4_decide_reject (exDB "IN_REVIEW" "CREATED") 1 (exApp "IN_REVIEW")
      (exDecideReject (some 7)) none (by rfl) rfl).1 (Or.inr rfl)).2 7 rfl (by decide)
  · exact (C4_decide_reject (exDB "IN_BATCH" "CREATED") 1 (exApp "IN_BATCH")
      (exDecideReject (some 7)) none (by rfl) rfl).2 (by decide)

/-- C10: for every existing batch, update_batch leaves vendor_id unchanged
when the supplied vendor reference is null but always overwrites
planned_send_at with the supplied value (clearing it when null), modifies no
other batch field, and replaces only that batch row in the database. -/
theorem C10_update_batch_frame (db : DB) (batch_id : Nat) (b : IssueBatch)
    (data : BatchUpdate) (actor : Option String)
    (hb : db.batchById batch_id = some b) :
    ∃ b2, update_batch db batch_id data actor = (.ok b2, db.putBatch b2) ∧
      (data.vendor_id = none → b2.vendor_id = b.vendor_id) ∧
      (∀ v, data.vendor_id = some v → b2.vendor_id = v) ∧
      b2.planned_send_at = data.planned_send_at ∧
      b2.id = b.id ∧ b2.batch_no = b.batch_no ∧ b2.status_id = b.status_id ∧
      b2.sent_at = b.sent_at ∧ b2.received_at = b.received_at ∧
      b2.created_at = b.created_at := by
  unfold update_batch
  rw [hb]
  simp only []
  cases hv : data.vendor_id with
  | none =>
    simp only []
    refine ⟨_, rfl, fun _ => rfl, ?_, rfl, rfl, rfl, rfl, rfl, rfl, rfl⟩
    intro v hv'
    exact Option.noConfusion hv'
  | some v0 =>
    simp only []
    refine ⟨_, rfl, ?_, ?_, rfl, rfl, rfl, rfl, rfl, rfl, rfl⟩
    · intro hv'
      exact Option.noConfusion hv'
    · intro v hv'
      cases hv'
      rfl

theorem C10_witness :
    ∃ b2, update_batch (exDB "NEW" "SENT") 2
        ({ vendor_id := none, planned_send_at := none } : BatchUpdate) none
      = (.ok b2, (exDB "NEW" "SENT").putBatch b2) ∧
      b2.vendor_id = (exBatch "SENT").vendor_id ∧ b2.planned_send_at = none ∧
      b2.status_id = (exBatch "SENT").status_id := by
  obtain ⟨b2, heq, hnone, _, hplan, _, _, hstat, _⟩ :=
    C10_update_batch_frame (exDB "NEW" "SENT") 2 (exBatch "SENT")
      ({ vendor_id := none, planned_send_at := none } : BatchUpdate) none (by rfl)
  exact ⟨b2, heq, hnone rfl, hplan, hstat⟩

theorem ensure_ok_basic {db : DB} {app_id : Nat} {actor : Option String} {cd : Card} {dbE : DB}
    (h : ensure_card_for_application db app_id actor = (.ok cd, dbE)) :
    cd.application_id = app_id ∧
    dbE.apps = db.apps ∧
    dbE.cardByApp app_id = some cd ∧
    (∃ a, db.appById app_id = some a ∧
      (a.status_id = "APPROVED" ∨ a.status_id = "IN_BATCH")) ∧
    (dbE.cards = db.cards ∨ (db.cardByApp app_id = none ∧ dbE.cards = db.cards ++ [cd])) := by
  unfold ensure_card_for_application at h
  cases ha : db.appById app_id with
  | none => rw [ha] at h; simp only [] at h; exact absurd h (by simp)
  | some a =>
    rw [ha] at h
    simp only [] at h
    by_cases hst : a.status_id ∈ (["APPROVED", "IN_BATCH"] : List String)
    · rw [if_neg (not_not_intro hst)] at h
      cases hcard : db.cardByApp app_id with
      | some ex =>
        rw [hcard] at h
        simp only [Prod.mk.injEq, Except.ok.injEq] at h
        obtain ⟨rfl, rfl⟩ := h
        exact ⟨by simpa using List.find?_some hcard, rfl, hcard,
          ⟨a, rfl, by simpa using hst⟩, Or.inl rfl⟩
      | none =>
        rw [hcard] at h
        simp only [] at h
        rw [next_seq_card_eq, get_status_id_card "CREATED" (by simp [cardStatusCodes])] at h
        simp only [] at h
        simp only [Prod.mk.injEq, Except.ok.injEq] at h
        obtain ⟨rfl, rfl⟩ := h
        have hcard2 : db.cards.find? (fun c => c.application_id = app_id) = none := hcard
        refine ⟨rfl, rfl, ?_, ⟨a, rfl, by simpa using hst⟩, Or.inr ⟨rfl, rfl⟩⟩
        show (db.cards ++ [_]).find? _ = _
        rw [find?_append_right hcard2]
        simp
    · rw [if_pos hst] at h
      exact absurd h (by simp)

/-- C7: ensure_card_for_application is idempotent: when no card exists and
the application's status is not APPROVED/IN_BATCH it fails with
InvalidStateError; and after any successful call, calling again returns the
very same card and database (so calling it twice returns the same card id
both times, and if there was no card row for the application before, there
is exactly one afterwards). -/
theorem C7_ensure_idempotent (db : DB) (app_id : Nat) (a : CardApplication)
    (actor actor2 : Option String) (ha : db.appById app_id = some a) :
    (db.cardByApp app_id = none →
      ¬(a.status_id = "APPROVED" ∨ a.status_id = "IN_BATCH") →
      ensure_card_for_application db app_id actor =
        (.error (.invalidState "Card can be created only for APPROVED/IN_BATCH applications"), db)) ∧
    (∀ c1 db1, ensure_card_for_application db app_id actor = (.ok c1, db1) →
      ensure_card_for_application db1 app_id actor2 = (.ok c1, db1) ∧
      (db.cards.filter (fun c => c.application_id = app_id) = [] →
        db1.cards.filter (fun c => c.application_id = app_id) = [c1])) := by
  constructor
  · intro _ hst
    unfold ensure_card_for_application
    rw [ha]
    simp only []
    rw [if_pos (by simpa using hst)]
  · intro c1 db1 h
    obtain ⟨happ_id, happs, hcByApp, ⟨a', ha', hst'⟩, hcards_rel⟩ := ensure_ok_basic h
    have haa : a' = a := by
      rw [ha] at ha'
      exact (Option.some.inj ha').symm
    subst haa
    constructor
    · unfold ensure_card_for_application
      rw [appById_congr happs app_id, ha]
      simp only []
      rw [if_neg (not_not_intro (by simpa using hst')), hcByApp]
    · intro hf
      rcases hcards_rel with hsame | ⟨hnone, happend⟩
      · exfalso
        have hmem : c1 ∈ db1.cards := List.mem_of_find?_eq_some hcByApp
        rw [hsame] at hmem
        have hmf : c1 ∈ db.cards.filter (fun c => c.application_id = app_id) :=
          List.mem_filter.2 ⟨hmem, by simp [happ_id]⟩
        rw [hf] at hmf
        cases hmf
      · rw [happend, List.filter_append, hf]
        simp [happ_id]

theorem C7_witness :
    ensure_card_for_application (exDB "NEW" "CREATED") 1 none =
      (.error (.invalidState "Card can be created only for APPROVED/IN_BATCH applications"),
       exDB "NEW" "CREATED") ∧
    (∃ c1 db1, ensure_card_for_application (exDB "APPROVED" "CREATED") 1 none = (.ok c1, db1) ∧
      ensure_card_for_application db1 1 (some "x") = (.ok c1, db1) ∧
      db1.cards.filter (fun c => c.application_id = 1) = [c1]) := by
  constructor
  · exact (C7_ensure_idempotent (exDB "NEW" "CREATED") 1 (exApp "NEW") none none
      (by rfl)).1 (by rfl) (by decide)
  · obtain ⟨c1, db1, hfirst⟩ :
        ∃ c1 db1, ensure_card_for_application (exDB "APPROVED" "CREATED") 1 none = (.ok c1, db1) :=
      ⟨_, _, rfl⟩
    obtain ⟨hsecond, hfilter⟩ := (C7_ensure_idempotent (exDB "APPROVED" "CREATED") 1
      (exApp "APPROVED") none (some "x") (by rfl)).2 c1 db1 hfirst
    exact ⟨c1, db1, hfirst, hsecond, hfilter (by rfl)⟩

theorem card_allowed_iff_succ (s t : String) :
    t ∈ CARD_ALLOWED s ↔ specCardSucc s = some t := by
  unfold CARD_ALLOWED specCardSucc
  split_ifs <;> simp [eq_comm]

/-- C2: applyEvent on an existing card succeeds exactly when the event maps
to the single allowed successor of the card's current state in the linear
chain CREATED, ISSUED, DELIVERED, HANDED, ACTIVATED, CLOSED; any other
recognized event fails with InvalidStateError and leaves the database
unchanged, and an unrecognized event name fails with ValidationError. -/
theorem C2_card_event_chain (db : DB) (card_id : Nat) (c : Card) (event : String)
    (actor : Option String) (hc : db.cardById card_id = some c) :
    (event_mapping event = none →
      card_event db card_id event actor = (.error (.validation "Invalid event"), db)) ∧
    (∀ t, event_mapping event = some t → specCardSucc c.status_id = some t →
      ∃ c2 db2, card_event db card_id event actor = (.ok c2, db2) ∧ c2.status_id = t) ∧
    (∀ t, event_mapping event = some t → specCardSucc c.status_id ≠ some t →
      card_event db card_id event actor =
        (.error (.invalidState
          ("Transition " ++ c.status_id ++ " -> " ++ t ++ " is not allowed")), db)) := by
  refine ⟨?_, ?_, ?_⟩
  · intro hev
    unfold card_event
    rw [hc]
    simp only []
    rw [hev]
  · intro t hev hsucc
    unfold card_event
    rw [hc]
    simp only []
    rw [hev]
    simp only []
    rw [if_neg (not_not_intro ((card_allowed_iff_succ _ _).2 hsucc))]
    unfold specCardSucc at hsucc
    split_ifs at hsucc with h1 h2 h3 h4 h5
    · obtain rfl : t = "ISSUED" := (Option.some.inj hsucc).symm
      rw [h1]
      exact ⟨_, _, rfl, rfl⟩
    · obtain rfl : t = "DELIVERED" := (Option.some.inj hsucc).symm
      rw [h2]
      exact ⟨_, _, rfl, rfl⟩
    · obtain rfl : t = "HANDED" := (Option.some.inj hsucc).symm
      rw [h3]
      exact ⟨_, _, rfl, rfl⟩
    · obtain rfl : t = "ACTIVATED" := (Option.some.inj hsucc).symm
      rw [h4]
      exact ⟨_, _, rfl, rfl⟩
    · obtain rfl : t = "CLOSED" := (Option.some.inj hsucc).symm
      rw [h5]
      exact ⟨_, _, rfl, rfl⟩
  · intro t hev hne
    unfold card_event
    rw [hc]
    simp only []
    rw [hev]
    simp only []
    rw [if_pos (fun hmem => hne ((card_allowed_iff_succ _ _).1 hmem))]

theorem C2_witness :
    card_event (exDBCard "IN_BATCH" "SENT" "DELIVERED") 4 "lost" none
      = (.error (.validation "Invalid event"), exDBCard "IN_BATCH" "SENT" "DELIVERED") ∧
    (∃ c2 db2, card_event (exDBCard "IN_BATCH" "SENT" "DELIVERED") 4 "handed" none
      = (.ok c2, db2) ∧ c2.status_id = "HANDED") ∧
    card_event (exDBCard "IN_BATCH" "SENT" "DELIVERED") 4 "activated" none
      = (.error (.invalidState "Transition DELIVERED -> ACTIVATED is not allowed"),
         exDBCard "IN_BATCH" "SENT" "DELIVERED") := by
  refine ⟨?_, ?_, ?_⟩
  · exact (C2_card_event_chain (exDBCard "IN_BATCH" "SENT" "DELIVERED") 4
      (exCard "DELIVERED") "lost" none (by rfl)).1 rfl
  · exact (C2_card_event_chain (exDBCard "IN_BATCH" "SENT" "DELIVERED") 4
      (exCard "DELIVERED") "handed" none (by rfl)).2.1 "HANDED" rfl (by rfl)
  · exact (C2_card_event_chain (exDBCard "IN_BATCH" "SENT" "DELIVERED") 4
      (exCard "DELIVERED") "activated" none (by rfl)).2.2 "ACTIVATED" rfl (by decide)

theorem mem_put_batch {l : List IssueBatch} {b2 y : IssueBatch}
    (hy : y ∈ l.map (fun x => if x.id = b2.id then b2 else x)) : y = b2 ∨ y ∈ l :=
  mem_put (fun b => b.id) hy

theorem map_put_batch_key {l : List IssueBatch}
    (hnd : (l.map (fun b => b.id)).Nodup) {bd b2 : IssueBatch} (hmem : bd ∈ l)
    (hid : b2.id = bd.id) (g : IssueBatch → Nat) (hg : g b2 = g bd) :
    (l.map (fun x => if x.id = b2.id then b2 else x)).map g = l.map g :=
  map_key_put (fun b => b.id) g hnd hmem hid hg

theorem WF_putBatch {db : DB} (hwf : WF db) {bd b2 : IssueBatch} (hmem : bd ∈ db.batches)
    (hid : b2.id = bd.id) : WF (db.putBatch b2) := by
  obtain ⟨hw1, hw2, hw3, hw4, hw5, hw6, hw7, hw8, hw9⟩ := hwf
  refine ⟨hw1, ?_, hw3, hw4, hw5, ?_, hw7, hw8, hw9⟩
  · show ((db.batches.map _).map _).Nodup
    rw [map_put_batch_key hw2 hmem hid (fun b => b.id) (by simpa using hid)]
    exact hw2
  · intro y hy
    rcases mem_put_batch hy with rfl | hy'
    · show y.id < db.uuid_seq
      rw [hid]
      exact hw6 bd hmem
    · exact hw6 y hy'

/-- C6 counterexample: the batch state machine is NOT enforced by
set_batch_status.  On a batch already in the terminal state RECEIVED, a call
with target SENT — which is not an allowed successor of RECEIVED — succeeds
and moves the batch to SENT instead of failing. -/
theorem C6_counterexample :
    ∃ b2 db2, set_batch_status (exDB "NEW" "RECEIVED") 2 "SENT" none = (.ok b2, db2) ∧
      b2.status_id = "SENT" :=
  ⟨_, _, rfl, rfl⟩

/-- C6 amended: set_batch_status performs no transition validation.  For
every existing batch, whatever its current status, a call with target
CREATED or SENT succeeds and sets that status; and a call with target
RECEIVED also succeeds (given the storage invariants and that every item
application of the batch is APPROVED or IN_BATCH, which makes the cascaded
issuance succeed).  The only unconditional failure is an unknown batch id. -/
theorem C6_no_transition_validation (db : DB) (batch_id : Nat) (b : IssueBatch)
    (actor : Option String) (hb : db.batchById batch_id = some b) :
    (∀ code, code ∈ batchStatusCodes → code ≠ "RECEIVED" →
      ∃ b2 db2, set_batch_status db batch_id code actor = (.ok b2, db2) ∧
        b2.status_id = code) ∧
    (WF db →
      (∀ it ∈ db.items, it.batch_id = batch_id →
        ∃ a, db.appById it.application_id = some a ∧
          (a.status_id = "APPROVED" ∨ a.status_id = "IN_BATCH")) →
      ∃ b2 db2, set_batch_status db batch_id "RECEIVED" actor = (.ok b2, db2) ∧
        b2.status_id = "RECEIVED") := by
  constructor
  · intro code hcode hne
    unfold set_batch_status
    rw [hb]
    simp only []
    rw [set_status_ok _ _ _ _ _ (get_status_id_batch code hcode)]
    simp only []
    rw [if_neg hne]
    exact ⟨_, _, rfl, rfl⟩
  · intro hwf hitems
    unfold set_batch_status
    rw [hb]
    simp only []
    rw [set_status_ok _ _ _ _ _ (get_status_id_batch "RECEIVED" (by simp [batchStatusCodes]))]
    simp only []
    simp only [String.reduceEq, if_true, if_false]
    set D := (add_history db "batch" b.id "RECEIVED" actor).putBatch
      { id := b.id, batch_no := b.batch_no, vendor_id := b.vendor_id, status_id := "RECEIVED",
        planned_send_at := b.planned_send_at, sent_at := b.sent_at,
        received_at := some db.now, created_at := b.created_at } with hD
    have hmemb : b ∈ db.batches := List.mem_of_find?_eq_some hb
    have hwf1 : WF D :=
      WF_putBatch (WF_add_history hwf "batch" b.id "RECEIVED" actor) hmemb rfl
    have hDapps : D.apps = db.apps := by rw [hD]; rfl
    unfold issue_batch_cards
    simp only []
    obtain ⟨r, dbg, hgo⟩ := issue_go_total actor
      ((D.items.filter (fun i => i.batch_id = batch_id)).map (fun i => i.application_id))
      D 0 0 hwf1
      (by
        intro aid haid
        rcases List.mem_map.1 haid with ⟨it, hit, rfl⟩
        have hmemit := List.mem_filter.1 hit
        have hit' : it ∈ db.items := by
          have hDi : D.items = db.items := by rw [hD]; rfl
          rw [← hDi]
          exact hmemit.1
        obtain ⟨a, ha, hs⟩ := hitems it hit' (by simpa using hmemit.2)
        exact ⟨a, (appById_congr hDapps it.application_id).trans ha, hs⟩)
    rw [hgo]
    exact ⟨_, _, rfl, rfl⟩

theorem C6_no_transition_validation_witness :
    (∃ b2 db2, set_batch_status (exDB "NEW" "RECEIVED") 2 "CREATED" none = (.ok b2, db2) ∧
      b2.status_id = "CREATED") ∧
    (∃ b2 db2, set_batch_status (exDB "IN_BATCH" "RECEIVED") 2 "RECEIVED" none
      = (.ok b2, db2) ∧ b2.status_id = "RECEIVED") := by
  constructor
  · exact (C6_no_transition_validation (exDB "NEW" "RECEIVED") 2 (exBatch "RECEIVED") none
      (by rfl)).1 "CREATED" (by simp [batchStatusCodes]) (by decide)
  · exact (C6_no_transition_validation (exDB "IN_BATCH" "RECEIVED") 2 (exBatch "RECEIVED") none
      (by rfl)).2 (by decide)
      (by
        intro it hit hbid
        refine ⟨exApp "IN_BATCH", ?_, Or.inr rfl⟩
        have : it = exItem := by simpa [exDB] using hit
        rw [this]
        rfl)

/-- C8: issue_batch_cards is safe to call twice: a successful call returns
counts with applications = number of batch items and cards_total equal to
it, pre-existing cards that are not in state CREATED are left untouched
(re-issuing is a no-op, not an error), and a second call on the same batch
returns cards_issued_now = 0 and changes nothing at all. -/
theorem C8_issue_idempotent (db : DB) (batch_id : Nat) (actor actor2 : Option String)
    (cnt : IssueCounts) (db1 : DB) (hwf : WF db)
    (h : issue_batch_cards db batch_id actor = (.ok cnt, db1)) :
    cnt.applications = (db.items.filter (fun it => it.batch_id = batch_id)).length ∧
    cnt.cards_total = cnt.applications ∧
    (∀ aid cd, db.cardByApp aid = some cd → cd.status_id ≠ "CREATED" →
      db1.cardByApp aid = some cd) ∧
    issue_batch_cards db1 batch_id actor2
      = (.ok { applications := cnt.applications, cards_total := cnt.applications,
               cards_issued_now := 0 }, db1) := by
  unfold issue_batch_cards at h
  simp only [] at h
  rcases hgo : issue_batch_cards_go actor db
      ((db.items.filter (fun i => i.batch_id = batch_id)).map (fun i => i.application_id)) 0 0
    with ⟨res, gdb⟩
  rw [hgo] at h
  cases res with
  | error e => simp at h
  | ok r =>
    simp only [Prod.mk.injEq, Except.ok.injEq] at h
    obtain ⟨rfl, rfl⟩ := h
    obtain ⟨hwf1, h1apps, h1items, h1batches, h1now, hcount, happok, hcardok, hpres⟩ :=
      issue_go_ok_inv actor _ db 0 0 r gdb hwf hgo
    refine ⟨by simp, ?_, hpres, ?_⟩
    · show r.2 = _
      rw [hcount]
      simp
    · unfold issue_batch_cards
      simp only []
      rw [h1items]
      rw [issue_go_noop actor2
        ((db.items.filter (fun i => i.batch_id = batch_id)).map (fun i => i.application_id))
        gdb 0 0 ?_]
      · simp
      · intro aid haid
        obtain ⟨a, ha, hs⟩ := happok aid haid
        obtain ⟨cd, hcd, hnc, _⟩ := hcardok aid haid
        exact ⟨⟨a, (appById_congr h1apps aid).trans ha, hs⟩, ⟨cd, hcd, hnc⟩⟩

theorem C8_witness :
    ∃ cnt db1, issue_batch_cards (exDB "IN_BATCH" "SENT") 2 none = (.ok cnt, db1) ∧
      cnt.applications = 1 ∧ cnt.cards_total = 1 ∧
      issue_batch_cards db1 2 (some "y")
        = (.ok { applications := 1, cards_total := 1, cards_issued_now := 0 }, db1) := by
  obtain ⟨cnt, db1, hfirst⟩ :
      ∃ cnt db1, issue_batch_cards (exDB "IN_BATCH" "SENT") 2 none = (.ok cnt, db1) :=
    ⟨_, _, rfl⟩
  obtain ⟨happ, htot, _, hsecond⟩ :=
    C8_issue_idempotent (exDB "IN_BATCH" "SENT") 2 none (some "y") cnt db1 (by decide) hfirst
  have happ1 : cnt.applications = 1 := by
    rw [happ]
    rfl
  refine ⟨cnt, db1, hfirst, happ1, htot.trans happ1, ?_⟩
  rw [hsecond, happ1]

theorem issuedOrLater_of_codes {s : String} (h1 : s ∈ cardStatusCodes)
    (h2 : s ≠ "CREATED") : issuedOrLater s := by
  unfold issuedOrLater
  simp only [cardStatusCodes, List.mem_cons, List.mem_singleton] at h1
  rcases h1 with rfl | h1
  · exact absurd rfl h2
  · simpa using h1

/-- C1: a successful batch.setStatus(batchId, RECEIVED) call triggers card
issuance as a side effect: afterwards every application in the batch's item
set (the items are unchanged by the call) has a card that exists and whose
state is ISSUED or later in the card chain. -/
theorem C1_received_issues_cards (db : DB) (batch_id : Nat) (actor : Option String)
    (res : IssueBatch) (db2 : DB) (hwf : WF db)
    (h : set_batch_status db batch_id "RECEIVED" actor = (.ok res, db2)) :
    db2.items = db.items ∧
    ∀ it ∈ db2.items, it.batch_id = batch_id →
      ∃ cd, db2.cardByApp it.application_id = some cd ∧ issuedOrLater cd.status_id := by
  unfold set_batch_status at h
  cases hbq : db.batchById batch_id with
  | none =>
    rw [hbq] at h
    simp only [] at h
    exact absurd h (by simp)
  | some b =>
    rw [hbq] at h
    simp only [] at h
    rw [set_status_ok _ _ _ _ _ (get_status_id_batch "RECEIVED" (by simp [batchStatusCodes]))] at h
    simp only [] at h
    simp only [String.reduceEq, if_true, if_false] at h
    set D := (add_history db "batch" b.id "RECEIVED" actor).putBatch
      { id := b.id, batch_no := b.batch_no, vendor_id := b.vendor_id, status_id := "RECEIVED",
        planned_send_at := b.planned_send_at, sent_at := b.sent_at,
        received_at := some db.now, created_at := b.created_at } with hD
    have hDitems : D.items = db.items := by rw [hD]; rfl
    have hwfD : WF D :=
      WF_putBatch (WF_add_history hwf "batch" b.id "RECEIVED" actor)
        (List.mem_of_find?_eq_some hbq) rfl
    unfold issue_batch_cards at h
    simp only [] at h
    rcases hgo : issue_batch_cards_go actor D
        ((D.items.filter (fun i => i.batch_id = batch_id)).map (fun i => i.application_id)) 0 0
      with ⟨gres, gdb⟩
    rw [hgo] at h
    cases gres with
    | error e => simp at h
    | ok r =>
      simp only [Prod.mk.injEq, Except.ok.injEq] at h
      obtain ⟨rfl, rfl⟩ := h
      obtain ⟨hwf1, h1apps, h1items, h1batches, h1now, hcount, happok, hcardok, hpres⟩ :=
        issue_go_ok_inv actor _ D 0 0 r gdb hwfD hgo
      have hitems2 : gdb.items = db.items := h1items.trans hDitems
      refine ⟨hitems2, ?_⟩
      intro it hit hbid
      have hitD : it ∈ D.items := by
        rw [hDitems]
        rw [hitems2] at hit
        exact hit
      have hmemids : it.application_id ∈
          (D.items.filter (fun i => i.batch_id = batch_id)).map (fun i => i.application_id) :=
        List.mem_map_of_mem _ (List.mem_filter.2 ⟨hitD, by simp [hbid]⟩)
      obtain ⟨cd, hcd, hnc, hcodes⟩ := hcardok it.application_id hmemids
      exact ⟨cd, hcd, issuedOrLater_of_codes hcodes hnc⟩

theorem C1_witness :
    ∃ res db2, set_batch_status (exDB "IN_BATCH" "SENT") 2 "RECEIVED" none = (.ok res, db2) ∧
      db2.items = (exDB "IN_BATCH" "SENT").items ∧
      ∃ cd, db2.cardByApp 1 = some cd ∧ issuedOrLater cd.status_id := by
  obtain ⟨res, db2, hcall⟩ :
      ∃ res db2, set_batch_status (exDB "IN_BATCH" "SENT") 2 "RECEIVED" none = (.ok res, db2) :=
    ⟨_, _, rfl⟩
  obtain ⟨hitems, hcards⟩ :=
    C1_received_issues_cards (exDB "IN_BATCH" "SENT") 2 none res db2 (by decide) hcall
  obtain ⟨cd, hcd, hlater⟩ := hcards exItem (by rw [hitems]; exact List.mem_singleton.2 rfl) rfl
  exact ⟨res, db2, hcall, hitems, cd, hcd, hlater⟩

theorem card_allowed_sub {s t : String} (h : t ∈ CARD_ALLOWED s) : t ∈ cardStatusCodes := by
  unfold CARD_ALLOWED at h
  split_ifs at h <;> simp_all [cardStatusCodes]

/-- C5: the core operations are atomic on failure: whenever
update_application, decide_application, add_batch_items,
ensure_card_for_application or card_event raises an error, the committed
database is exactly the one before the call — no KYC/decision fields, no
status, no history rows and no batch items are persisted by the failed
call.  The same holds for set_batch_status (for RECEIVED under the storage
invariants and well-formed batch items, which is every state the API can
produce). -/
theorem C5_atomic_on_failure (db : DB) :
    (∀ app_id data actor e db2,
      update_application db app_id data actor = (.error e, db2) → db2 = db) ∧
    (∀ app_id data actor e db2,
      decide_application db app_id data actor = (.error e, db2) → db2 = db) ∧
    (∀ batch_id ids actor e db2,
      add_batch_items db batch_id ids actor = (.error e, db2) → db2 = db) ∧
    (∀ app_id actor e db2,
      ensure_card_for_application db app_id actor = (.error e, db2) → db2 = db) ∧
    (∀ card_id event actor e db2,
      card_event db card_id event actor = (.error e, db2) → db2 = db) ∧
    (∀ batch_id code actor e db2, code ≠ "RECEIVED" →
      set_batch_status db batch_id code actor = (.error e, db2) → db2 = db) ∧
    (∀ batch_id actor e db2, WF db →
      (∀ it ∈ db.items, it.batch_id = batch_id →
        ∃ a, db.appById it.application_id = some a ∧
          (a.status_id = "APPROVED" ∨ a.status_id = "IN_BATCH")) →
      set_batch_status db batch_id "RECEIVED" actor = (.error e, db2) → db2 = db) := by
  refine ⟨?_, ?_, ?_, ?_, ?_, ?_, ?_⟩
  · intro app_id data actor e db2 h
    unfold update_application at h
    cases ha : db.appById app_id with
    | none =>
      rw [ha] at h
      simp only [] at h
      simp only [Prod.mk.injEq] at h
      exact h.2.symm
    | some a =>
      rw [ha] at h
      simp only [] at h
      by_cases hst : a.status_id ∈ (["APPROVED", "REJECTED", "IN_BATCH"] : List String)
      · rw [if_pos hst] at h
        simp only [Prod.mk.injEq] at h
        exact h.2.symm
      · rw [if_neg hst] at h
        exact absurd h (by simp)
  · intro app_id data actor e db2 h
    unfold decide_application at h
    cases ha : db.appById app_id with
    | none =>
      rw [ha] at h
      simp only [] at h
      simp only [Prod.mk.injEq] at h
      exact h.2.symm
    | some a =>
      rw [ha] at h
      simp only [] at h
      by_cases hst : a.status_id ∈ (["NEW", "IN_REVIEW"] : List String)
      · rw [if_pos hst] at h
        by_cases hd1 : data.decision = "approve"
        · rw [if_pos hd1,
            set_status_ok _ _ _ _ _ (get_status_id_app "APPROVED" (by simp [appStatusCodes]))] at h
          simp only [] at h
          exact absurd h (by simp)
        · rw [if_neg hd1] at h
          by_cases hd2 : data.decision = "reject"
          · rw [if_pos hd2] at h
            by_cases hrr : truthyNat data.reject_reason_id = false
            · rw [if_pos hrr] at h
              simp only [Prod.mk.injEq] at h
              exact h.2.symm
            · rw [if_neg hrr,
                set_status_ok _ _ _ _ _
                  (get_status_id_app "REJECTED" (by simp [appStatusCodes]))] at h
              simp only [] at h
              exact absurd h (by simp)
          · rw [if_neg hd2] at h
            simp only [Prod.mk.injEq] at h
            exact h.2.symm
      · rw [if_neg hst] at h
        simp only [Prod.mk.injEq] at h
        exact h.2.symm
  · intro batch_id ids actor e db2 h
    unfold add_batch_items at h
    cases hbq : db.batchById batch_id with
    | none =>
      rw [hbq] at h
      simp only [] at h
      simp only [Prod.mk.injEq] at h
      exact h.2.symm
    | some b =>
      rw [hbq] at h
      simp only [] at h
      rw [get_status_id_app "APPROVED" (by simp [appStatusCodes])] at h
      simp only [] at h
      rw [get_status_id_app "IN_BATCH" (by simp [appStatusCodes])] at h
      simp only [] at h
      cases hgo : add_batch_items_go db batch_id "APPROVED" "IN_BATCH" ids actor with
      | error e' =>
        rw [hgo] at h
        simp only [Prod.mk.injEq] at h
        exact h.2.symm
      | ok db1 =>
        rw [hgo] at h
        exact absurd h (by simp)
  · intro app_id actor e db2 h
    unfold ensure_card_for_application at h
    cases ha : db.appById app_id with
    | none =>
      rw [ha] at h
      simp only [] at h
      simp only [Prod.mk.injEq] at h
      exact h.2.symm
    | some a =>
      rw [ha] at h
      simp only [] at h
      by_cases hst : a.status_id ∈ (["APPROVED", "IN_BATCH"] : List String)
      · rw [if_neg (not_not_intro hst)] at h
        cases hcard : db.cardByApp app_id with
        | some ex =>
          rw [hcard] at h
          exact absurd h (by simp)
        | none =>
          rw [hcard] at h
          simp only [] at h
          rw [next_seq_card_eq, get_status_id_card "CREATED" (by simp [cardStatusCodes])] at h
          simp only [] at h
          exact absurd h (by simp)
      · rw [if_pos hst] at h
        simp only [Prod.mk.injEq] at h
        exact h.2.symm
  · intro card_id event actor e db2 h
    unfold card_event at h
    cases hcq : db.cardById card_id with
    | none =>
      rw [hcq] at h
      simp only [] at h
      simp only [Prod.mk.injEq] at h
      exact h.2.symm
    | some c =>
      rw [hcq] at h
      simp only [] at h
      cases hev : event_mapping event with
      | none =>
        rw [hev] at h
        simp only [Prod.mk.injEq] at h
        exact h.2.symm
      | some t =>
        rw [hev] at h
        simp only [] at h
        by_cases hmem : t ∈ CARD_ALLOWED c.status_id
        · rw [if_neg (not_not_intro hmem),
            set_status_ok _ _ _ _ _ (get_status_id_card t (card_allowed_sub hmem))] at h
          simp only [] at h
          exact absurd h (by simp)
        · rw [if_pos hmem] at h
          simp only [Prod.mk.injEq] at h
          exact h.2.symm
  · intro batch_id code actor e db2 hne h
    unfold set_batch_status at h
    cases hbq : db.batchById batch_id with
    | none =>
      rw [hbq] at h
      simp only [] at h
      simp only [Prod.mk.injEq] at h
      exact h.2.symm
    | some b =>
      rw [hbq] at h
      simp only [] at h
      by_cases hcode : code ∈ batchStatusCodes
      · rw [set_status_ok _ _ _ _ _ (get_status_id_batch code hcode)] at h
        simp only [] at h
        rw [if_neg hne] at h
        exact absurd h (by simp)
      · have hgsneg : ¬(("batch" = "application" ∧ code ∈ appStatusCodes)
            ∨ ("batch" = "batch" ∧ code ∈ batchStatusCodes)
            ∨ ("batch" = "card" ∧ code ∈ cardStatusCodes)) := by
          rintro (⟨h1, _⟩ | ⟨_, h2⟩ | ⟨h1, _⟩)
          · exact absurd h1 (by decide)
          · exact hcode h2
          · exact absurd h1 (by decide)
        have hss : set_status db "batch" b.id code actor
            = .error (.storage "ref_status row not found") := by
          unfold set_status get_status_id
          rw [if_neg hgsneg]
        rw [hss] at h
        simp only [Prod.mk.injEq] at h
        exact h.2.symm
  · intro batch_id actor e db2 hwf hitems h
    unfold set_batch_status at h
    cases hbq : db.batchById batch_id with
    | none =>
      rw [hbq] at h
      simp only [] at h
      simp only [Prod.mk.injEq] at h
      exact h.2.symm
    | some b =>
      rw [hbq] at h
      simp only [] at h
      rw [set_status_ok _ _ _ _ _ (get_status_id_batch "RECEIVED" (by simp [batchStatusCodes]))] at h
      simp only [] at h
      simp only [String.reduceEq, if_true, if_false] at h
      set D := (add_history db "batch" b.id "RECEIVED" actor).putBatch
        { id := b.id, batch_no := b.batch_no, vendor_id := b.vendor_id, status_id := "RECEIVED",
          planned_send_at := b.planned_send_at, sent_at := b.sent_at,
          received_at := some db.now, created_at := b.created_at } with hD
    -- the issuance after the commit cannot fail under the hypotheses
      have hDapps : D.apps = db.apps := by rw [hD]; rfl
      have hDitems : D.items = db.items := by rw [hD]; rfl
      have hwfD : WF D :=
        WF_putBatch (WF_add_history hwf "batch" b.id "RECEIVED" actor)
          (List.mem_of_find?_eq_some hbq) rfl
      unfold issue_batch_cards at h
      simp only [] at h
      obtain ⟨r, dbg, hgo⟩ := issue_go_total actor
        ((D.items.filter (fun i => i.batch_id = batch_id)).map (fun i => i.application_id))
        D 0 0 hwfD
        (by
          intro aid haid
          rcases List.mem_map.1 haid with ⟨it, hit, rfl⟩
          have hmemit := List.mem_filter.1 hit
          have hit' : it ∈ db.items := by
            rw [← hDitems]
            exact hmemit.1
          obtain ⟨a, ha, hs⟩ := hitems it hit' (by simpa using hmemit.2)
          exact ⟨a, (appById_congr hDapps it.application_id).trans ha, hs⟩)
      rw [hgo] at h
      exact absurd h (by simp)

theorem C5_witness :
    (decide_application (exDB "NEW" "CREATED") 1 (exDecideReject none) none).2
      = exDB "NEW" "CREATED" ∧
    (add_batch_items (exDB "NEW" "CREATED") 2 [1] none).2 = exDB "NEW" "CREATED" := by
  constructor
  · exact (C5_atomic_on_failure (exDB "NEW" "CREATED")).2.1 1 (exDecideReject none) none
      (.validation "reject_reason_id is required for rejection") _ (by rfl)
  · exact (C5_atomic_on_failure (exDB "NEW" "CREATED")).2.2.1 2 [1] none
      (.validation "Application APP-2026-000001 must be APPROVED to be added to batch") _ (by rfl)

theorem decDigitChar_val {d : Nat} (h : d < 10) : (decDigitChar d).toNat - 48 = d := by
  interval_cases d <;> decide

theorem ofDigits_append_digit (l : List Char) (c : Char) :
    ofDigits (l ++ [c]) = ofDigits l * 10 + (c.toNat - 48) := by
  unfold ofDigits
  rw [List.foldl_append]
  rfl

theorem ofDigits_decDigits (n : Nat) : ofDigits (decDigits n) = n := by
  induction n using Nat.strong_induction_on with
  | _ n ih =>
    rw [decDigits]
    by_cases h : n < 10
    · rw [dif_pos h]
      show List.foldl _ 0 _ = n
      simp only [List.foldl_cons, List.foldl_nil]
      have := decDigitChar_val h
      omega
    · rw [dif_neg h]
      rw [ofDigits_append_digit]
      rw [ih (n / 10) (Nat.div_lt_self (by omega) (by omega))]
      rw [decDigitChar_val (Nat.mod_lt _ (by omega))]
      omega

theorem ofDigits_replicate_zeros (k : Nat) (l : List Char) :
    ofDigits (List.replicate k '0' ++ l) = ofDigits l := by
  induction k with
  | zero => simp
  | succ k ih =>
    rw [List.replicate_succ, List.cons_append]
    show ofDigits (List.replicate k '0' ++ l) = ofDigits l
    exact ih

theorem decDigits_length_le : ∀ k n, 1 ≤ k → n < 10 ^ k → (decDigits n).length ≤ k := by
  intro k
  induction k with
  | zero => intro n h; omega
  | succ k ih =>
    intro n _ hn
    rw [decDigits]
    by_cases h : n < 10
    · rw [dif_pos h]
      simp
    · rw [dif_neg h]
      rw [List.length_append]
      have hk : 1 ≤ k := by
        by_contra hk0
        have : k = 0 := by omega
        subst this
        simp [pow_succ] at hn
        omega
      have hdiv : n / 10 < 10 ^ k := by
        rw [Nat.div_lt_iff_lt_mul (by omega)]
        calc n < 10 ^ (k + 1) := hn
        _ = 10 ^ k * 10 := by rw [pow_succ]
      have := ih (n / 10) hk hdiv
      simp only [List.length_cons, List.length_nil]
      omega

/-- C9: make_no joins "<pre>-<year>-<zero-padded n>", where the padded block
is a base-10 numeral of n (leading zeros included) of length
max(width, digits of n); and every application number assigned at creation
is make_no "APP" year seq 6, which for seq below 10^6 is APP-<year>-<exactly
6 digits denoting seq>. -/
theorem C9_make_no_format :
    (∀ pre year n width,
      make_no pre year n width
        = pre ++ "-" ++ String.mk (decDigits year) ++ "-" ++
            String.mk (List.replicate (width - (decDigits n).length) '0' ++ decDigits n) ∧
      ofDigits (List.replicate (width - (decDigits n).length) '0' ++ decDigits n) = n ∧
      (List.replicate (width - (decDigits n).length) '0' ++ decDigits n).length
        = max width (decDigits n).length) ∧
    (∀ db data actor, ∃ a dbN,
      create_application db data actor = (.ok a, dbN) ∧
      a.application_no = make_no "APP" (yearOf db.now) (db.app_seq + 1) 6 ∧
      (db.app_seq + 1 < 10 ^ 6 →
        ∃ ds, a.application_no
            = "APP-" ++ String.mk (decDigits (yearOf db.now)) ++ "-" ++ String.mk ds ∧
          ds.length = 6 ∧ ofDigits ds = db.app_seq + 1)) := by
  constructor
  · intro pre year n width
    refine ⟨rfl, ?_, ?_⟩
    · rw [ofDigits_replicate_zeros, ofDigits_decDigits]
    · rw [List.length_append, List.length_replicate]
      omega
  · intro db data actor
    unfold create_application
    rw [next_seq_app_eq, get_status_id_app "NEW" (by simp [appStatusCodes])]
    simp only []
    refine ⟨_, _, rfl, rfl, ?_⟩
    intro hlt
    refine ⟨List.replicate (6 - (decDigits (db.app_seq + 1)).length) '0'
        ++ decDigits (db.app_seq + 1), ?_, ?_, ?_⟩
    · rfl
    · rw [List.length_append, List.length_replicate]
      have := decDigits_length_le 6 (db.app_seq + 1) (by omega) hlt
      omega
    · rw [ofDigits_replicate_zeros, ofDigits_decDigits]

theorem C9_witness :
    (make_no "APP" 2026 17 6
        = "APP" ++ "-" ++ String.mk (decDigits 2026) ++ "-" ++
            String.mk (List.replicate (6 - (decDigits 17).length) '0' ++ decDigits 17) ∧
      ofDigits (List.replicate (6 - (decDigits 17).length) '0' ++ decDigits 17) = 17 ∧
      (List.replicate (6 - (decDigits 17).length) '0' ++ decDigits 17).length
        = max 6 (decDigits 17).length) ∧
    (∃ a dbN, create_application (exDB "NEW" "CREATED")
        ({ client_id := 1, product_id := 1, tariff_id := 1, channel_id := 1, branch_id := 1,
           delivery_method_id := 1, delivery_address := none, delivery_comment := none,
           embossing_name := none, is_salary_project := false,
           requested_delivery_date := none, priority := "normal",
           limits_requested_json := [], consent_personal_data := true,
           consent_marketing := false, comment := none } : ApplicationCreate) none
      = (.ok a, dbN) ∧
      a.application_no = make_no "APP" (yearOf 100) 2 6) := by
  constructor
  · exact C9_make_no_format.1 "APP" 2026 17 6
  · obtain ⟨a, dbN, heq, hno, _⟩ := C9_make_no_format.2 (exDB "NEW" "CREATED")
      ({ client_id := 1, product_id := 1, tariff_id := 1, channel_id := 1, branch_id := 1,
         delivery_method_id := 1, delivery_address := none, delivery_comment := none,
         embossing_name := none, is_salary_project := false,
         requested_delivery_date := none, priority := "normal",
         limits_requested_json := [], consent_personal_data := true,
         consent_marketing := false, comment := none } : ApplicationCreate) none
    exact ⟨a, dbN, heq, hno⟩
